import Mathlib

/-!
Verification of the Learnkit collaborative-canvas server.

Shallow embedding of the parts of the code the claims are about:

* `DatabaseStorage.replaceCanvasState` (src/server/openai.ts, lines 1756-2027):
  destructive full-state replacement with client-id → database-id reconciliation.
* the `GET /api/canvases/:id/state` handler (src/unnamed/part_001, lines 613-1121):
  read-back of elements and connections with the layered client-id recovery.
* the `PUT /api/canvases/:id/state` fallback branch (lines 1298-1336).
* `DatabaseStorage.updateCanvasVisibility` (src/server/openai.ts, lines 1479-1499).
* the WebSocket layer of src/unnamed/part_001: the connection registry
  (`canvasConnections`), `broadcastToCanvas`, `safeSendMessage`, the per-connection
  message handler, the ping interval and the close handler.

Modelling conventions:

* JSON objects are association lists `List (String × String)`; a scalar JSON value
  is rendered as its string form (numbers in decimal), since every code path the
  claims exercise only ever compares these values or tests their truthiness.
  Key insertion order of JavaScript objects is not tracked (lookup semantics are).
* JavaScript truthiness of a string field is "present and nonempty"
  (`truthy?`); of a numeric field it is "present and nonzero".
* Payloads arrive already parsed into objects; the `typeof x === 'string' ?
  JSON.parse(x) : x` branches of the source collapse to the object case.
* The database client is replaced by an in-memory store; `INSERT ... RETURNING id`
  yields consecutive ids from an explicit `startId` supply (Postgres serial ids,
  hence positive in practice).  No query in the model throws, so the
  `catch` branch of `replaceCanvasState` is unreachable here; the route-level
  fallback behaviour (claim about the PUT handler) takes the outcome of
  `replaceCanvasState` as an explicit parameter instead.
-/

/-! ## Association-list JSON model -/

/-- JSON object: association list of string keys to (stringified) scalar values. -/
abbrev JsonObj := List (String × String)

/-- Truthiness of an optional string: JavaScript `if (x)` on a string field. -/
def truthy? : Option String → Option String
  | some s => if s = "" then none else some s
  | none => none

/-- Raw key lookup (`k in obj` + value). -/
def jget (o : JsonObj) (k : String) : Option String :=
  o.lookup k

/-- `obj[k]` when the key is present and the value truthy. -/
def jtruthy (o : JsonObj) (k : String) : Option String :=
  truthy? (jget o k)

/-- `obj[k] = v` / object-spread override: JavaScript object update by key. -/
def jset (o : JsonObj) (k v : String) : JsonObj :=
  (k, v) :: o.filter (fun p => p.1 ≠ k)

/-- `{...base, ...ext}`: every entry of `ext` overrides `base` in order. -/
def objMerge (base ext : JsonObj) : JsonObj :=
  ext.foldl (fun a p => jset a p.1 p.2) base

/-- `String(x)` on a possibly-absent value (`String(undefined) = "undefined"`). -/
def strOf : Option String → String
  | some s => s
  | none => "undefined"

/-! ## Storage model: `DatabaseStorage.replaceCanvasState`
    (src/server/openai.ts, lines 1756-2027) -/

/-- An element as submitted by the client (React Flow node).  `data` is flattened
into its three consulted fields; a missing `data` object makes all three `none`,
which is observationally identical in every branch the source takes
(`el.data && el.data.x` guards each access). -/
structure InputElement where
  id : Option String
  type : Option String
  dataType : Option String
  dataContent : Option JsonObj
  dataOriginalQuestion : Option String
  position : Option JsonObj
  size : Option JsonObj
  style : Option JsonObj
deriving Repr, DecidableEq

/-- A connection (edge) as submitted by the client. `animated` models
`conn.animated === true`. -/
structure InputConnection where
  source : Option String
  target : Option String
  type : Option String
  animated : Bool
  style : Option JsonObj
deriving Repr, DecidableEq

/-- Row of the `canvas_elements` table. -/
structure ElementRow where
  id : Nat
  canvasId : Nat
  type : String
  elementType : String
  content : JsonObj
  position : JsonObj
  size : JsonObj
  style : JsonObj
  originalQuestion : String
deriving Repr, DecidableEq

/-- Row of the `connections` table. -/
structure ConnectionRow where
  id : Nat
  canvasId : Nat
  sourceId : Option Nat
  targetId : Option Nat
  type : String
  animated : Bool
  style : JsonObj
deriving Repr, DecidableEq

/-- The per-canvas slice of the store after `DELETE` + inserts. -/
structure CanvasStore where
  elements : List ElementRow
  connections : List ConnectionRow
deriving Repr, DecidableEq

/-- `Map.set` on a string-keyed map (overwrite semantics). -/
def mapSet {β : Type} (m : List (String × β)) (k : String) (v : β) : List (String × β) :=
  (k, v) :: m.filter (fun p => p.1 ≠ k)

/-- Harvest alternate client ids from the element's original content and style
payloads into `additionalIdMap` (lines 1797-1832). -/
def harvestAliases (amap : List (String × String)) (el : InputElement)
    (clientId : String) : List (String × String) :=
  let amap1 :=
    match el.dataContent with
    | none => amap
    | some c =>
      let a := match jtruthy c "clientId" with
        | some v => mapSet amap v clientId
        | none => amap
      match jtruthy c "_clientId" with
      | some v => mapSet a v clientId
      | none => a
  match el.style with
  | none => amap1
  | some s =>
    match jtruthy s "clientId" with
    | some v => mapSet amap1 v clientId
    | none => amap1

/-- Build the row inserted for one element (lines 1834-1859): the canonical
client id is stamped into both style and content before the insert. -/
def mkElementRow (canvasId dbId : Nat) (el : InputElement) : ElementRow :=
  let clientId := strOf el.id
  { id := dbId
    canvasId := canvasId
    type := (truthy? el.type).getD "textElement"
    elementType := (truthy? el.dataType).getD "text"
    content := jset (jset (el.dataContent.getD []) "clientId" clientId) "_clientId" clientId
    position := el.position.getD [("x", "0"), ("y", "0")]
    size := el.size.getD [("width", "300"), ("height", "200")]
    style := jset (el.style.getD []) "clientId" clientId
    originalQuestion := (truthy? el.dataOriginalQuestion).getD "" }

/-- Insert loop over elements (lines 1780-1871): an element without a truthy
`type` is skipped; each inserted element records `clientId → dbId` in
`clientIdToDbId` and its harvested aliases in `additionalIdMap`. -/
def insertElements (canvasId : Nat) :
    List InputElement → Nat → List (String × Nat) → List (String × String) →
    List ElementRow × List (String × Nat) × List (String × String) × Nat
  | [], nextId, cmap, amap => ([], cmap, amap, nextId)
  | el :: rest, nextId, cmap, amap =>
    match truthy? el.type with
    | none => insertElements canvasId rest nextId cmap amap
    | some _ =>
      let clientId := strOf el.id
      let amap1 := harvestAliases amap el clientId
      let row := mkElementRow canvasId nextId el
      let cmap1 := mapSet cmap clientId nextId
      let r := insertElements canvasId rest (nextId + 1) cmap1 amap1
      (row :: r.1, r.2)

/-- `resolveClientId` (lines 1881-1895): direct hit in the primary map, else the
alias map. -/
def resolveClientId (cmap : List (String × Nat)) (amap : List (String × String))
    (i : String) : Option String :=
  if (cmap.lookup i).isSome then some i
  else amap.lookup i

/-- Connection preprocessing (lines 1897-1939): when the direct id does not
resolve, a style-embedded id (`sourceClientId`/`targetClientId` overriding
`sourceId`/`targetId`) is resolved and, on success, written back into the
connection.  A connection missing source or target is left untouched. -/
def preprocessConn (cmap : List (String × Nat)) (amap : List (String × String))
    (conn : InputConnection) : InputConnection :=
  match truthy? conn.source, truthy? conn.target with
  | some s, some t =>
    let styleObj := conn.style.getD []
    let sourceFromStyle := match jtruthy styleObj "sourceClientId" with
      | some v => some v
      | none => jtruthy styleObj "sourceId"
    let targetFromStyle := match jtruthy styleObj "targetClientId" with
      | some v => some v
      | none => jtruthy styleObj "targetId"
    let newSource := match resolveClientId cmap amap s with
      | some _ => conn.source
      | none =>
        match sourceFromStyle.bind (resolveClientId cmap amap) with
        | some r => some r
        | none => conn.source
    let newTarget := match resolveClientId cmap amap t with
      | some _ => conn.target
      | none =>
        match targetFromStyle.bind (resolveClientId cmap amap) with
        | some r => some r
        | none => conn.target
    { conn with source := newSource, target := newTarget }
  | _, _ => conn

/-- The `validConnections` filter (lines 1941-1963): both endpoints must be keys
of `clientIdToDbId`. -/
def connPasses (cmap : List (String × Nat)) (conn : InputConnection) : Bool :=
  match truthy? conn.source, truthy? conn.target with
  | some s, some t => (cmap.lookup s).isSome && (cmap.lookup t).isSome
  | _, _ => false

/-- Style stored with a connection (lines 1986-2003): client and database ids
for both endpoints plus appearance defaults, then the submitted style spread
last (so its entries override). -/
def connStyle (conn : InputConnection) (s t : String) (sd td : Nat) : JsonObj :=
  let styleObj := conn.style.getD []
  objMerge
    [("sourceClientId", s), ("targetClientId", t),
     ("sourceDbId", toString sd), ("targetDbId", toString td),
     ("type", (truthy? conn.type).getD "smoothstep"),
     ("stroke", (jtruthy styleObj "stroke").getD "#6366f1"),
     ("strokeWidth", (jtruthy styleObj "strokeWidth").getD "2")]
    styleObj

/-- One connection insert (lines 1968-2014); `none` when the database-id lookup
fails or is zero (`if (!sourceDbId || !targetDbId) continue`). -/
def mkConnRow (canvasId dbId : Nat) (cmap : List (String × Nat))
    (conn : InputConnection) : Option ConnectionRow :=
  let s := strOf conn.source
  let t := strOf conn.target
  match cmap.lookup s, cmap.lookup t with
  | some sd, some td =>
    if sd = 0 ∨ td = 0 then none
    else
      some { id := dbId
             canvasId := canvasId
             sourceId := some sd
             targetId := some td
             type := (truthy? conn.type).getD "default"
             animated := conn.animated
             style := connStyle conn s t sd td }
  | _, _ => none

/-- Insert loop over the filtered connections. -/
def insertConnections (canvasId : Nat) (cmap : List (String × Nat)) :
    List InputConnection → Nat → List ConnectionRow × Nat
  | [], nextId => ([], nextId)
  | conn :: rest, nextId =>
    match mkConnRow canvasId nextId cmap conn with
    | some row =>
      let r := insertConnections canvasId cmap rest (nextId + 1)
      (row :: r.1, r.2)
    | none => insertConnections canvasId cmap rest nextId

/-- `replaceCanvasState` (lines 1756-2027): delete both tables for the canvas,
insert elements building the id maps, preprocess/filter/insert connections,
and report success.  `startId` is the next value of the serial id sequence. -/
def replaceCanvasState (canvasId startId : Nat) (elements : List InputElement)
    (edgeConnections : List InputConnection) : CanvasStore × Bool :=
  let r := insertElements canvasId elements startId [] []
  let erows := r.1
  let cmap := r.2.1
  let amap := r.2.2.1
  let nextId := r.2.2.2
  let pre := edgeConnections.map (preprocessConn cmap amap)
  let valid := pre.filter (connPasses cmap)
  let crows := (insertConnections canvasId cmap valid nextId).1
  ({ elements := erows, connections := crows }, true)

/-! ## Read model: `GET /api/canvases/:id/state`
    (src/unnamed/part_001, lines 613-1121) -/

/-- Client id recovered from a stored element row (lines 706-753): style
`clientId`, else style `originalId`, else content `_clientId`, else the
database id rendered as a string. -/
def extractClientId (row : ElementRow) : String :=
  let originalClientId : Option String :=
    match jtruthy row.style "clientId" with
    | some v => some v
    | none => jtruthy row.style "originalId"
  match originalClientId with
  | some v => v
  | none =>
    match jtruthy row.content "_clientId" with
    | some v => v
    | none => toString row.id

/-- Element as returned to the client (lines 869-881).  The React Flow node-kind
remapping of lines 807-864 only renames the `type`/`data.type` labels and is
not consulted by any claim; the row's stored labels are carried through. -/
structure OutElement where
  id : String
  type : String
  position : JsonObj
  contentType : String
  content : JsonObj
  originalQuestion : String
  style : JsonObj
  size : JsonObj
deriving Repr, DecidableEq

/-- Map one stored row to the response element: the response `id` is the
database id as a string; `data.type` prefers a truthy `content.type` over
`element_type || 'text'`. -/
def readElement (row : ElementRow) : OutElement :=
  { id := toString row.id
    type := row.type
    position := row.position
    contentType := (jtruthy row.content "type").getD
      (if row.elementType = "" then "text" else row.elementType)
    content := row.content
    originalQuestion := row.originalQuestion
    style := row.style
    size := row.size }

/-- Connection as returned to the client (lines 1080-1099). -/
structure OutConnection where
  id : String
  source : String
  target : String
  type : String
  animated : Bool
  style : JsonObj
deriving Repr, DecidableEq

/-- `!x || x === 'undefined'`: the endpoint-string sanity test of the handler. -/
def badId (s : String) : Bool := s = "" || s = "undefined"

/-- `LEFT JOIN` of a connection endpoint onto `canvas_elements` by database id. -/
def findElement (rows : List ElementRow) : Option Nat → Option ElementRow
  | none => none
  | some i => rows.find? (fun r => r.id = i)

/-- Stage 1 (lines 918-942): endpoint from the connection's own style, keys
`sourceClientId` / `sourceId` / `source` in priority order (resp. target). -/
def endpointFromStyle (style : JsonObj) (kClient kId kPlain : String) : String :=
  match jtruthy style kClient with
  | some v => v
  | none =>
    match jtruthy style kId with
    | some v => v
    | none => (jtruthy style kPlain).getD ""

/-- Stage 2 (lines 944-988): joined element content, keys `clientId` then
`_clientId`, tried only while the current value is still invalid. -/
def endpointFromContent (joined : Option ElementRow) (cur : String) : String :=
  if badId cur then
    match joined with
    | none => cur
    | some e =>
      match jtruthy e.content "clientId" with
      | some v => v
      | none =>
        match jtruthy e.content "_clientId" with
        | some v => v
        | none => cur
  else cur

/-- Stage 3 (lines 990-1023): joined element style, key `clientId`. -/
def endpointFromJoinedStyle (joined : Option ElementRow) (cur : String) : String :=
  if badId cur then
    match joined with
    | none => cur
    | some e =>
      match jtruthy e.style "clientId" with
      | some v => v
      | none => cur
  else cur

/-- Stage 4 (lines 1025-1048): database foreign key mapped through
`elementIdMap`, else rendered directly. -/
def endpointFromDbId (emap : List (Nat × String)) (oid : Option Nat) (cur : String) : String :=
  if badId cur then
    match oid with
    | none => cur
    | some i =>
      if i = 0 then cur
      else
        match emap.lookup i with
        | some v => v
        | none => toString i
  else cur

/-- Full endpoint recovery chain for one side of a connection. -/
def resolveEndpoint (erows : List ElementRow) (emap : List (Nat × String))
    (style : JsonObj) (kClient kId kPlain : String) (oid : Option Nat) : String :=
  let s0 := endpointFromStyle style kClient kId kPlain
  let s1 := endpointFromContent (findElement erows oid) s0
  let s2 := endpointFromJoinedStyle (findElement erows oid) s1
  endpointFromDbId emap oid s2

/-- Map one stored connection row to the response connection (lines 895-1108);
`none` when either endpoint is still invalid after every fallback
(lines 1050-1054). -/
def readConnection (erows : List ElementRow) (emap : List (Nat × String))
    (row : ConnectionRow) : Option OutConnection :=
  let parsedStyle := row.style
  let source := resolveEndpoint erows emap parsedStyle "sourceClientId" "sourceId" "source" row.sourceId
  let target := resolveEndpoint erows emap parsedStyle "targetClientId" "targetId" "target" row.targetId
  if badId source ∨ badId target then none
  else
    some { id := toString row.id
           source := source
           target := target
           type := if row.type = "" then "smoothstep" else row.type
           animated := row.animated
           style :=
             jset (jset (parsedStyle.filter (fun p => p.1 ≠ "source" ∧ p.1 ≠ "target"))
                 "stroke" ((jtruthy parsedStyle "stroke").getD "#6366f1"))
               "strokeWidth" ((jtruthy parsedStyle "strokeWidth").getD "2") }

/-- The whole `GET /api/canvases/:id/state` response body: the element id map is
built first (lines 699-756), then elements and connections are mapped, dropping
connections that fail endpoint recovery. -/
def readCanvasState (store : CanvasStore) : List OutElement × List OutConnection :=
  let emap := store.elements.map (fun r => (r.id, extractClientId r))
  (store.elements.map readElement,
   store.connections.filterMap (readConnection store.elements emap))

/-! ## Route model: `PUT /api/canvases/:id/state` save outcome
    (src/unnamed/part_001, lines 1298-1336) -/

/-- What `storage.replaceCanvasState` did, seen from the route: resolved `true`,
resolved `false` (the route then throws `"Failed to save canvas state"`), or
rejected. -/
inductive SaveOutcome where
  | ok
  | dbFalse
  | threw
deriving Repr, DecidableEq

/-- The observable response of the save branch. `fallbackTried` records whether
`storage.updateCanvas(id, { updatedAt })` was attempted; `markedPartial` is the
`partial: true` flag of the 207 body. -/
structure SaveResponse where
  status : Nat
  success : Bool
  markedPartial : Bool
  fallbackTried : Bool
deriving Repr, DecidableEq

/-- The try/catch ladder of the save branch: success only on a `true` result;
otherwise the timestamp-only fallback runs and yields 207 (`partial: true`)
when it succeeds, 500 when it throws too. -/
def putCanvasStateRespond (replaceResult : SaveOutcome) (timestampOk : Bool) : SaveResponse :=
  match replaceResult with
  | .ok => { status := 200, success := true, markedPartial := false, fallbackTried := false }
  | _ =>
    if timestampOk then
      { status := 207, success := false, markedPartial := true, fallbackTried := true }
    else
      { status := 500, success := false, markedPartial := false, fallbackTried := true }

/-! ## Storage model: `DatabaseStorage.updateCanvasVisibility`
    (src/server/openai.ts, lines 1479-1499; schema in src/shared/schema.ts,
    lines 33-43) -/

/-- Row of the `canvases` table (consulted fields). -/
structure CanvasRow where
  id : Nat
  name : String
  userId : Option Nat
  createdAt : Nat
  updatedAt : Nat
  thumbnail : Option String
  visibility : String
  isPublic : Bool
deriving Repr, DecidableEq

/-- `updateCanvasVisibility`: validate the visibility value, derive the legacy
`isPublic` boolean, and update `visibility`, `isPublic` and `updatedAt` in a
single `set`.  An invalid value throws before any update runs. -/
def updateCanvasVisibility (canvas : CanvasRow) (visibility : String) (now : Nat) :
    Except String CanvasRow :=
  if (["private", "collaborative", "public"].contains visibility) = false then
    Except.error "Invalid visibility value. Must be 'private', 'collaborative', or 'public'"
  else
    Except.ok { canvas with
      visibility := visibility
      isPublic := visibility = "public"
      updatedAt := now }

/-! ## WebSocket model (src/unnamed/part_001, lines 48-177 and 1600-1933) -/

/-- `WebSocket.CONNECTING` -/
def WS_CONNECTING : Nat := 0
/-- `WebSocket.OPEN` -/
def WS_OPEN : Nat := 1
/-- `WebSocket.CLOSING` -/
def WS_CLOSING : Nat := 2
/-- `WebSocket.CLOSED` -/
def WS_CLOSED : Nat := 3

/-- An `ExtendedWebSocket`: transport state plus the custom bookkeeping fields.
`sendOk` / `pingOk` model whether `socket.send` / `socket.ping` throw when
called (the only observable behaviour of those foreign calls). -/
structure Sock where
  readyState : Nat
  isAlive : Bool
  sendOk : Bool
  pingOk : Bool
  userId : Option Nat
  canvasId : Option Nat
  username : Option String
deriving Repr, DecidableEq

/-- A serialized envelope sent by the server.  `users` carries the user-id list
payloads (`connectedUsers` / `users`); `payload` carries relayed opaque
payloads. -/
structure OutMsg where
  type : String
  canvasId : Nat
  userId : Nat
  username : String
  users : List Nat
  payload : Option String
deriving Repr, DecidableEq

/-- Externally visible action on a socket. -/
inductive Effect where
  | send (sid : Nat) (msg : OutMsg)
  | close (sid : Nat) (code : Nat)
  | ping (sid : Nat)
  | terminate (sid : Nat)
deriving Repr, DecidableEq

/-- `isSocketConnected` (lines 87-89) as a Bool over the socket table. -/
def sockOpenB (socks : Nat → Option Sock) (sid : Nat) : Bool :=
  match socks sid with
  | some sk => sk.readyState == WS_OPEN
  | none => false

/-- One pass of the `connections.forEach` body of `broadcastToCanvas`
(lines 128-162), processed in registry order: returns the send attempts
(`socket.send` calls), the successful deliveries, and `toRemove`. -/
def broadcastLoop (socks : Nat → Option Sock) (excludeUserId : Option Nat) :
    List (Nat × Nat) → List (Nat × Nat) × List (Nat × Nat) × List Nat
  | [] => ([], [], [])
  | p :: rest =>
    let r := broadcastLoop socks excludeUserId rest
    if excludeUserId = some p.1 then r
    else
      match socks p.2 with
      | none => (r.1, r.2.1, p.1 :: r.2.2)
      | some sock =>
        if sock.readyState = WS_OPEN then
          if sock.sendOk then (p :: r.1, p :: r.2.1, r.2.2)
          else (p :: r.1, r.2.1, p.1 :: r.2.2)
        else if sock.readyState = WS_CLOSED ∨ sock.readyState = WS_CLOSING then
          (r.1, r.2.1, p.1 :: r.2.2)
        else r

/-- Result of one `broadcastToCanvas` call. -/
structure BroadcastResult where
  registry : List (Nat × Nat)
  attempts : List (Nat × Nat)
  delivered : List (Nat × Nat)
  removed : List Nat
  serializations : Nat
deriving Repr, DecidableEq

/-- `broadcastToCanvas` (lines 109-177): early return on an empty registry,
otherwise serialize once, iterate the per-canvas map skipping the excluded
user, and delete the failed entries after the iteration. -/
def broadcastToCanvas (socks : Nat → Option Sock) (conns : List (Nat × Nat))
    (excludeUserId : Option Nat) : BroadcastResult :=
  if conns.isEmpty then
    { registry := conns, attempts := [], delivered := [], removed := [], serializations := 0 }
  else
    let r := broadcastLoop socks excludeUserId conns
    { registry := conns.filter (fun p => !(r.2.2.contains p.1))
      attempts := r.1
      delivered := r.2.1
      removed := r.2.2
      serializations := 1 }

/-- Entry update used by `Map.set` when the key is already present. -/
def updEntry {β : Type} (k : Nat) (v : β) (p : Nat × β) : Nat × β :=
  if p.1 = k then (k, v) else p

/-- `Map.set` on a Nat-keyed JavaScript `Map`: update in place when the key
exists, append otherwise (preserves `Map` iteration order). -/
def msetN {β : Type} (m : List (Nat × β)) (k : Nat) (v : β) : List (Nat × β) :=
  if (m.lookup k).isSome then m.map (updEntry k v)
  else m ++ [(k, v)]

/-- `Map.delete` on a Nat-keyed map. -/
def mdelN {β : Type} (m : List (Nat × β)) (k : Nat) : List (Nat × β) :=
  m.filter (fun p => p.1 ≠ k)

/-- Whole-server mutable state: the socket table (`wss.clients` plus the
per-socket fields) and `canvasConnections`. -/
structure ServerState where
  socks : List (Nat × Sock)
  registry : List (Nat × List (Nat × Nat))
deriving Repr, DecidableEq

/-- An inbound envelope after `JSON.parse` (interface `WebSocketMessage`,
lines 67-73); absent fields are `none`. -/
structure WireMsg where
  type : Option String
  canvasId : Option Nat
  userId : Option Nat
  username : Option String
  payload : Option String
deriving Repr, DecidableEq

/-- The `error` envelopes of the message handler (lines 1709-1715, 1726-1732). -/
def errEnvelope (text : String) (c u : Nat) : OutMsg :=
  { type := "error", canvasId := c, userId := u, username := "server",
    users := [], payload := some text }

/-- `getCanvasConnections` (lines 79-84) also inserts an empty per-canvas map
when none exists yet. -/
def getCanvasRegistry (registry : List (Nat × List (Nat × Nat))) (canvasId : Nat) :
    List (Nat × List (Nat × Nat)) :=
  if (registry.lookup canvasId).isSome then registry else msetN registry canvasId []

/-- Socket bookkeeping stamped on every valid message (lines 1746-1752). -/
def updSock (sock : Sock) (canvasId userId : Nat) (uname : Option String) : Sock :=
  { sock with
    userId := some userId, canvasId := some canvasId,
    username := uname, isAlive := true }

/-- Registration step common to every valid message (lines 1754-1771): an
existing different socket for the same (canvas, user) is closed with code 1000
and removed, then this socket is stored. -/
def registerConnection (cu0 : List (Nat × Nat)) (userId sid : Nat) :
    List (Nat × Nat) × List Effect :=
  match cu0.lookup userId with
  | some oldSid =>
    if oldSid ≠ sid then (msetN (mdelN cu0 userId) userId sid, [Effect.close oldSid 1000])
    else (msetN cu0 userId sid, [])
  | none => (msetN cu0 userId sid, [])

/-- The `connection-acknowledged` reply (lines 1775-1789). -/
def ackMsg (canvasId userId : Nat) (uname : Option String)
    (cu2 : List (Nat × Nat)) : OutMsg :=
  { type := "connection-acknowledged", canvasId := canvasId, userId := userId,
    username := uname.getD "", users := cu2.map Prod.fst, payload := none }

/-- The `user-joined` envelope broadcast by the join case. -/
def userJoinedMsg (canvasId userId : Nat) (uname : Option String) : OutMsg :=
  { type := "user-joined", canvasId := canvasId, userId := userId,
    username := uname.getD "", users := [], payload := none }

/-- The `active-users` reply of the join case (lines 1802-1816). -/
def activeUsersMsg (canvasId : Nat) (activeUsers : List Nat) : OutMsg :=
  { type := "active-users", canvasId := canvasId, userId := 0,
    username := "server", users := activeUsers, payload := none }

/-- The message-type switch (lines 1792-1884): returns the final per-canvas map
and the case's effects.  `join-canvas` re-affirms the registration, replies
with the other active users and broadcasts `user-joined` excluding the sender;
`leave-canvas` broadcasts `user-left` then unregisters; `canvas-update` and
`cursor-position` relay the payload; `heartbeat` and unknown types do nothing
further. -/
def dispatchCase (socks1 : List (Nat × Sock)) (canvasId userId sid : Nat)
    (uname payload : Option String) (mtype : String) (cu2 : List (Nat × Nat)) :
    List (Nat × Nat) × List Effect :=
  let socksFun := fun i => socks1.lookup i
  if mtype = "join-canvas" then
    let cu3 := if cu2.lookup userId = some sid then cu2 else msetN cu2 userId sid
    let activeUsers := (cu3.map Prod.fst).filter (fun i => i ≠ userId)
    let br := broadcastToCanvas socksFun cu3 (some userId)
    let brEffs := br.attempts.map (fun p => Effect.send p.2 (userJoinedMsg canvasId userId uname))
    (br.registry, Effect.send sid (activeUsersMsg canvasId activeUsers) :: brEffs)
  else if mtype = "leave-canvas" then
    let leftMsg : OutMsg :=
      { type := "user-left", canvasId := canvasId, userId := userId,
        username := uname.getD "", users := [], payload := none }
    let br := broadcastToCanvas socksFun cu2 (some userId)
    let brEffs := br.attempts.map (fun p => Effect.send p.2 leftMsg)
    (mdelN br.registry userId, brEffs)
  else if mtype = "canvas-update" ∨ mtype = "cursor-position" then
    let relayMsg : OutMsg :=
      { type := mtype, canvasId := canvasId, userId := userId,
        username := uname.getD "", users := [], payload := payload }
    let br := broadcastToCanvas socksFun cu2 (some userId)
    let brEffs := br.attempts.map (fun p => Effect.send p.2 relayMsg)
    (br.registry, brEffs)
  else
    -- `heartbeat` only re-marks `isAlive` (already stamped); unknown types are
    -- logged and ignored.
    (cu2, [])

/-- The `message` handler (lines 1690-1888).  `raw = none` is a frame that
failed `JSON.parse`.  The handler: drops messages on non-open sockets; rejects
unparsable frames and envelopes with a falsy `canvasId`, `userId` or `type`
with an `error` envelope and no state change; otherwise stamps the socket's
bookkeeping fields, replaces any other socket registered for
`(canvasId, userId)` (closing it with code 1000), registers this socket,
acknowledges, and dispatches on the message type. -/
def handleMessage (st : ServerState) (sid : Nat) (raw : Option WireMsg) :
    ServerState × List Effect :=
  match st.socks.lookup sid with
  | none => (st, [])
  | some sock =>
    if sock.readyState ≠ WS_OPEN then (st, [])
    else
      match raw with
      | none => (st, [Effect.send sid (errEnvelope "Invalid JSON message format" 0 0)])
      | some data =>
        if data.canvasId.getD 0 = 0 ∨ data.userId.getD 0 = 0 ∨ (truthy? data.type).isNone then
          (st, [Effect.send sid (errEnvelope
            "Message missing required fields (canvasId, userId, or type)"
            (data.canvasId.getD 0) (data.userId.getD 0))])
        else
          let canvasId := data.canvasId.getD 0
          let userId := data.userId.getD 0
          let socks1 := msetN st.socks sid (updSock sock canvasId userId data.username)
          let registry0 := getCanvasRegistry st.registry canvasId
          let cu0 := (registry0.lookup canvasId).getD []
          let reg := registerConnection cu0 userId sid
          let dc := dispatchCase socks1 canvasId userId sid data.username data.payload
            (data.type.getD "") reg.1
          ({ socks := socks1, registry := msetN registry0 canvasId dc.1 },
           reg.2 ++ [Effect.send sid (ackMsg canvasId userId data.username reg.1)] ++ dc.2)

/-- One tick of the liveness probe (lines 1600-1635): a socket found not-alive
is terminated; otherwise it is marked not-alive and pinged, and a socket whose
ping throws is terminated in the same tick. -/
def pingCycle : List (Nat × Sock) → List (Nat × Sock) × List Effect
  | [] => ([], [])
  | (sid, sk) :: rest =>
    let r := pingCycle rest
    if sk.isAlive = false then (r.1, Effect.terminate sid :: r.2)
    else if sk.pingOk then
      ((sid, { sk with isAlive := false }) :: r.1, Effect.ping sid :: r.2)
    else (r.1, Effect.ping sid :: Effect.terminate sid :: r.2)

/-- `user-left` envelope of the close handler. -/
def userLeftMsg (canvasId userId : Nat) (username : String) : OutMsg :=
  { type := "user-left", canvasId := canvasId, userId := userId,
    username := username, users := [], payload := none }

/-- Fallback scan of one canvas map (lines 1915-1931): remove every entry whose
socket is the closed one, broadcasting `user-left` over the map as it shrinks
(the broadcast itself may drop further entries). -/
def closeScanUsers (socks : Nat → Option Sock) (sid canvasId : Nat) :
    List (Nat × Nat) → List (Nat × Nat) → List (Nat × Nat) × List Effect
  | [], cur => (cur, [])
  | (uid, s0) :: rest, cur =>
    if s0 = sid then
      let cur1 := mdelN cur uid
      let br := broadcastToCanvas socks cur1 none
      let effs := br.attempts.map (fun p => Effect.send p.2 (userLeftMsg canvasId uid ""))
      let r := closeScanUsers socks sid canvasId rest br.registry
      (r.1, effs ++ r.2)
    else closeScanUsers socks sid canvasId rest cur

/-- Fallback path of the close handler: linear scan over every canvas. -/
def closeFallback (st : ServerState) (sid : Nat) : ServerState × List Effect :=
  let socksFun := fun i => st.socks.lookup i
  let folded := st.registry.foldl
    (fun (acc : List (Nat × List (Nat × Nat)) × List Effect) entry =>
      let r := closeScanUsers socksFun sid entry.1 entry.2 entry.2
      (acc.1 ++ [(entry.1, r.1)], acc.2 ++ r.2))
    ([], [])
  ({ socks := st.socks, registry := folded.1 }, folded.2)

/-- The `close` handler (lines 1891-1932): when the socket recorded truthy
`userId`/`canvasId` fields and that user is registered on that canvas, the
entry is deleted and `user-left` is broadcast to the remaining members;
otherwise the linear fallback scan runs. -/
def closeHandler (st : ServerState) (sid : Nat) : ServerState × List Effect :=
  match st.socks.lookup sid with
  | none => (st, [])
  | some sk =>
    match sk.userId, sk.canvasId with
    | some u, some c =>
      if u ≠ 0 ∧ c ≠ 0 then
        let registry0 := getCanvasRegistry st.registry c
        let cu := (registry0.lookup c).getD []
        if (cu.lookup u).isSome then
          let cu1 := mdelN cu u
          let br := broadcastToCanvas (fun i => st.socks.lookup i) cu1 none
          ({ socks := st.socks, registry := msetN registry0 c br.registry },
           br.attempts.map (fun p => Effect.send p.2 (userLeftMsg c u (sk.username.getD ""))))
        else closeFallback st sid
      else closeFallback st sid
    | _, _ => closeFallback st sid

/-! ## Helper definitions used by the statements -/

/-- The ephemeral identity of a submitted element: `String(el.id)`. -/
def elKey (el : InputElement) : String := strOf el.id

/-- Delivery failure as `broadcastToCanvas` judges it: vanished socket, a
closing/closed socket, or an open socket whose `send` throws. -/
def deliveryFailB (socks : Nat → Option Sock) (sid : Nat) : Bool :=
  match socks sid with
  | none => true
  | some sk =>
    (sk.readyState == WS_CLOSED || sk.readyState == WS_CLOSING) ||
    (sk.readyState == WS_OPEN && !sk.sendOk)

/-- Registry wellformedness: canvas keys are unique and each per-canvas map has
unique user keys (automatic for JavaScript `Map`s, an invariant here). -/
def regWF (st : ServerState) : Prop :=
  (st.registry.map Prod.fst).Nodup ∧ ∀ p ∈ st.registry, (p.2.map Prod.fst).Nodup

/-- Per-edge well-formedness used by the round-trip theorem: truthy endpoints
that resolve in the primary client-id map to nonzero database ids, and a style
payload whose own `sourceClientId`/`targetClientId` entries (if any) agree with
the canonical endpoints. -/
def ConnQ (cmap : List (String × Nat)) (conn : InputConnection) : Prop :=
  ∃ s t sd td,
    conn.source = some s ∧ s ≠ "" ∧ s ≠ "undefined" ∧
    conn.target = some t ∧ t ≠ "" ∧ t ≠ "undefined" ∧
    cmap.lookup s = some sd ∧ sd ≠ 0 ∧
    cmap.lookup t = some td ∧ td ≠ 0 ∧
    (∀ p ∈ conn.style.getD [], p.1 = "sourceClientId" → p.2 = s) ∧
    (∀ p ∈ conn.style.getD [], p.1 = "targetClientId" → p.2 = t)

/-! Concrete sample data used by the witnesses and counterexamples. -/

/-- Sample element `a` with a content payload. -/
def wElA : InputElement :=
  ⟨some "a", some "textElement", some "text", some [("text", "hello")], none, none, none, none⟩

/-- Sample element `b` without a content payload. -/
def wElB : InputElement :=
  ⟨some "b", some "textElement", some "text", none, none, none, none, none⟩

/-- Sample element with no node kind (`type` absent). -/
def wElNoType : InputElement :=
  ⟨some "a", none, none, none, none, none, none, none⟩

/-- Sample edge `a → b`. -/
def wConnAB : InputConnection := ⟨some "a", some "b", none, false, none⟩

/-- Sample edge whose target names no element. -/
def wConnGhost : InputConnection := ⟨some "a", some "ghost", none, false, none⟩

/-- An open, healthy socket with no bookkeeping fields set. -/
def wSockOpen : Sock := ⟨WS_OPEN, true, true, true, none, none, none⟩

/-- Server state: user 2 on canvas 1 over socket 5; sockets 5 and 7 open. -/
def wState : ServerState := ⟨[(5, wSockOpen), (7, wSockOpen)], [(1, [(2, 5)])]⟩

/-- Server state: user 3 on canvas 1 over socket 5; sockets 5 and 7 open. -/
def wState2 : ServerState := ⟨[(5, wSockOpen), (7, wSockOpen)], [(1, [(3, 5)])]⟩

/-- Valid join envelope from user 2 on canvas 1. -/
def wJoin : WireMsg := ⟨some "join-canvas", some 1, some 2, some "alice", none⟩

/-- Envelope with type, canvasId and userId but no username. -/
def wNoUsername : WireMsg := ⟨some "heartbeat", some 1, some 2, none, none⟩

/-- Envelope whose canvasId is falsy. -/
def wBadShape : WireMsg := ⟨some "join-canvas", some 0, some 2, some "alice", none⟩

/-- Sample canvas row. -/
def wCanvas : CanvasRow := ⟨4, "demo", some 9, 0, 0, none, "private", false⟩

/-! Basic lookup lemmas for the association-list operations. -/

theorem jget_jset_same (o : JsonObj) (k v : String) : jget (jset o k v) k = some v := by
  simp [jget, jset, List.lookup]

theorem lookup_filter_of_ne {β : Type}
    (o : List (String × β)) (k : String) (q : String × β → Bool)
    (hq : ∀ v, q (k, v) = true) :
    (o.filter q).lookup k = o.lookup k := by
  induction o with
  | nil => rfl
  | cons p rest ih =>
    obtain ⟨pk, pv⟩ := p
    by_cases hqp : q (pk, pv) = true
    · cases hbeq : (k == pk) with
      | true => simp [List.filter_cons, hqp, List.lookup, hbeq]
      | false => simp [List.filter_cons, hqp, List.lookup, hbeq, ih]
    · have hk : pk ≠ k := by
        intro hkk
        apply hqp
        rw [hkk]
        exact hq pv
      have hbeq : (k == pk) = false := beq_eq_false_iff_ne.mpr (Ne.symm hk)
      simp [List.filter_cons, hqp, List.lookup, hbeq, ih]

theorem jget_jset_other (o : JsonObj) (k k' v : String) (h : k' ≠ k) :
    jget (jset o k v) k' = jget o k' := by
  unfold jget jset
  have hbeq : (k' == k) = false := beq_eq_false_iff_ne.mpr h
  have h1 : ((k, v) :: o.filter (fun p => p.1 ≠ k)).lookup k' =
      (o.filter (fun p => p.1 ≠ k)).lookup k' := by
    simp [List.lookup, hbeq]
  rw [h1, lookup_filter_of_ne o k' (fun p => decide (p.1 ≠ k))]
  intro v2
  simp [h]

/-- Lookup through `objMerge` when every override of key `k` agrees with `s`. -/
theorem jget_objMerge_const (base ext : JsonObj) (k s : String)
    (hb : jget base k = some s)
    (he : ∀ p ∈ ext, p.1 = k → p.2 = s) :
    jget (objMerge base ext) k = some s := by
  induction ext generalizing base with
  | nil => simpa [objMerge]
  | cons p rest ih =>
    have hstep : objMerge base (p :: rest) = objMerge (jset base p.1 p.2) rest := by
      simp [objMerge]
    rw [hstep]
    apply ih
    · by_cases hk : p.1 = k
      · have : p.2 = s := he p (by simp) hk
        rw [← hk] at *
        simpa [this] using jget_jset_same base p.1 p.2
      · rw [jget_jset_other base p.1 k p.2 (fun h => hk h.symm)]
        exact hb
    · intro q hq
      exact he q (by simp [hq])


theorem natLookup_eq_none_iff {β : Type} (m : List (Nat × β)) (k : Nat) :
    m.lookup k = none ↔ k ∉ m.map Prod.fst := by
  induction m with
  | nil => simp [List.lookup]
  | cons p rest ih =>
    cases hbeq : (k == p.1) with
    | true =>
      have : k = p.1 := by simpa using hbeq
      simp [List.lookup, hbeq, this]
    | false =>
      have : ¬ k = p.1 := by simpa using hbeq
      simp [List.lookup, hbeq, this, ih]

theorem natLookup_mem {β : Type} {m : List (Nat × β)} {k : Nat} {v : β}
    (h : m.lookup k = some v) : (k, v) ∈ m := by
  induction m with
  | nil => simp [List.lookup] at h
  | cons p rest ih =>
    obtain ⟨pk, pv⟩ := p
    cases hbeq : (k == pk) with
    | true =>
      have hk : k = pk := by simpa using hbeq
      simp only [List.lookup, hbeq] at h
      cases h
      subst hk
      exact List.mem_cons_self _ _
    | false =>
      simp only [List.lookup, hbeq] at h
      exact List.mem_cons_of_mem _ (ih h)

theorem natLookup_filter_of_ne {β : Type} (m : List (Nat × β)) (k : Nat)
    (q : Nat × β → Bool) (hq : ∀ v, q (k, v) = true) :
    (m.filter q).lookup k = m.lookup k := by
  induction m with
  | nil => rfl
  | cons p rest ih =>
    obtain ⟨pk, pv⟩ := p
    by_cases hqp : q (pk, pv) = true
    · cases hbeq : (k == pk) with
      | true => simp [List.filter_cons, hqp, List.lookup, hbeq]
      | false => simp [List.filter_cons, hqp, List.lookup, hbeq, ih]
    · have hk : pk ≠ k := by
        intro hkk
        apply hqp
        rw [hkk]
        exact hq pv
      have hbeq : (k == pk) = false := beq_eq_false_iff_ne.mpr (Ne.symm hk)
      simp [List.filter_cons, hqp, List.lookup, hbeq, ih]

theorem natLookup_filter_none {β : Type} (m : List (Nat × β)) (k : Nat)
    (q : Nat × β → Bool) (h : m.lookup k = none) :
    (m.filter q).lookup k = none := by
  rw [natLookup_eq_none_iff] at h ⊢
  intro hmem
  apply h
  obtain ⟨p, hp, hfst⟩ := List.mem_map.mp hmem
  exact List.mem_map.mpr ⟨p, (List.mem_filter.mp hp).1, hfst⟩

theorem updEntry_pos {β : Type} (k : Nat) (v : β) (pk : Nat) (pv : β) (h : pk = k) :
    updEntry k v (pk, pv) = (k, v) := by
  simp [updEntry, h]

theorem updEntry_neg {β : Type} (k : Nat) (v : β) (pk : Nat) (pv : β) (h : pk ≠ k) :
    updEntry k v (pk, pv) = (pk, pv) := by
  simp [updEntry, h]

theorem lookup_inplace_same {β : Type} (m : List (Nat × β)) (k : Nat) (v w : β)
    (h : m.lookup k = some w) :
    (m.map (updEntry k v)).lookup k = some v := by
  induction m with
  | nil => simp [List.lookup] at h
  | cons p rest ih =>
    obtain ⟨pk, pv⟩ := p
    by_cases hpk : pk = k
    · subst hpk
      rw [List.map_cons, updEntry_pos pk v pk pv rfl]
      simp [List.lookup]
    · have hbeq : (k == pk) = false := beq_eq_false_iff_ne.mpr (Ne.symm hpk)
      simp only [List.lookup, hbeq] at h
      rw [List.map_cons, updEntry_neg k v pk pv hpk]
      simp only [List.lookup, hbeq]
      exact ih h

theorem lookup_inplace_other {β : Type} (m : List (Nat × β)) (k k' : Nat) (v : β)
    (h : k' ≠ k) :
    (m.map (updEntry k v)).lookup k' = m.lookup k' := by
  induction m with
  | nil => rfl
  | cons p rest ih =>
    obtain ⟨pk, pv⟩ := p
    by_cases hpk : pk = k
    · subst hpk
      have hbeq : (k' == pk) = false := beq_eq_false_iff_ne.mpr h
      rw [List.map_cons, updEntry_pos pk v pk pv rfl]
      simp only [List.lookup, hbeq]
      exact ih
    · rw [List.map_cons, updEntry_neg k v pk pv hpk]
      simp only [List.lookup]
      cases hbeq : (k' == pk) with
      | true => rfl
      | false => exact ih

theorem lookup_append_single_same {β : Type} (m : List (Nat × β)) (k : Nat) (v : β)
    (h : m.lookup k = none) : (m ++ [(k, v)]).lookup k = some v := by
  induction m with
  | nil => simp [List.lookup]
  | cons p rest ih =>
    obtain ⟨pk, pv⟩ := p
    cases hbeq : (k == pk) with
    | true =>
      simp only [List.lookup, hbeq] at h
      simp at h
    | false =>
      simp only [List.lookup, hbeq] at h
      simp only [List.cons_append, List.lookup, hbeq]
      exact ih h

theorem lookup_append_single_other {β : Type} (m : List (Nat × β)) (k k' : Nat) (v : β)
    (h : k' ≠ k) : (m ++ [(k, v)]).lookup k' = m.lookup k' := by
  induction m with
  | nil =>
    have hbeq : (k' == k) = false := beq_eq_false_iff_ne.mpr h
    simp [List.lookup, hbeq]
  | cons p rest ih =>
    obtain ⟨pk, pv⟩ := p
    cases hbeq : (k' == pk) with
    | true => simp only [List.cons_append, List.lookup, hbeq]
    | false =>
      simp only [List.cons_append, List.lookup, hbeq]
      exact ih

theorem msetN_lookup_same {β : Type} (m : List (Nat × β)) (k : Nat) (v : β) :
    (msetN m k v).lookup k = some v := by
  unfold msetN
  by_cases hp : (m.lookup k).isSome
  · obtain ⟨w, hw⟩ := Option.isSome_iff_exists.mp hp
    simp only [hp, if_true]
    exact lookup_inplace_same m k v w hw
  · have hn : m.lookup k = none := Option.not_isSome_iff_eq_none.mp hp
    simp only [hp, if_false]
    exact lookup_append_single_same m k v hn

theorem msetN_lookup_other {β : Type} (m : List (Nat × β)) (k k' : Nat) (v : β)
    (h : k' ≠ k) : (msetN m k v).lookup k' = m.lookup k' := by
  unfold msetN
  by_cases hp : (m.lookup k).isSome
  · simp only [hp, if_true]
    exact lookup_inplace_other m k k' v h
  · simp only [hp, if_false]
    exact lookup_append_single_other m k k' v h

theorem mem_msetN {β : Type} {m : List (Nat × β)} {k : Nat} {v : β} {q : Nat × β}
    (h : q ∈ msetN m k v) : q = (k, v) ∨ q ∈ m := by
  unfold msetN at h
  by_cases hp : (m.lookup k).isSome
  · simp only [hp, if_true] at h
    obtain ⟨⟨pk, pv⟩, hpm, hpe⟩ := List.mem_map.mp h
    by_cases hpk : pk = k
    · rw [updEntry_pos k v pk pv hpk] at hpe
      left
      exact hpe.symm
    · rw [updEntry_neg k v pk pv hpk] at hpe
      right
      rw [← hpe]
      exact hpm
  · simp only [hp, if_false] at h
    rcases List.mem_append.mp h with h1 | h1
    · right; exact h1
    · left; simpa using h1

theorem mem_msetN_of_ne {β : Type} {m : List (Nat × β)} {k : Nat} {v : β} {p : Nat × β}
    (hm : p ∈ m) (hne : p.1 ≠ k) : p ∈ msetN m k v := by
  unfold msetN
  by_cases hp : (m.lookup k).isSome
  · simp only [hp, if_true]
    refine List.mem_map.mpr ⟨p, hm, ?_⟩
    obtain ⟨pk, pv⟩ := p
    exact updEntry_neg k v pk pv hne
  · simp only [hp, if_false]
    exact List.mem_append.mpr (Or.inl hm)

theorem keys_msetN_present {β : Type} (m : List (Nat × β)) (k : Nat) (v : β)
    (h : (m.lookup k).isSome) : (msetN m k v).map Prod.fst = m.map Prod.fst := by
  unfold msetN
  simp only [h, if_true, List.map_map]
  apply List.map_congr_left
  intro p _
  obtain ⟨pk, pv⟩ := p
  by_cases hpk : pk = k
  · rw [Function.comp_apply, updEntry_pos k v pk pv hpk]
    simp [hpk]
  · rw [Function.comp_apply, updEntry_neg k v pk pv hpk]

theorem keys_msetN_absent {β : Type} (m : List (Nat × β)) (k : Nat) (v : β)
    (h : m.lookup k = none) : (msetN m k v).map Prod.fst = m.map Prod.fst ++ [k] := by
  unfold msetN
  simp [h]

theorem nodup_keys_msetN {β : Type} (m : List (Nat × β)) (k : Nat) (v : β)
    (h : (m.map Prod.fst).Nodup) : ((msetN m k v).map Prod.fst).Nodup := by
  by_cases hp : (m.lookup k).isSome
  · rw [keys_msetN_present m k v hp]
    exact h
  · have hn : m.lookup k = none := Option.not_isSome_iff_eq_none.mp hp
    rw [keys_msetN_absent m k v hn]
    have hk : k ∉ m.map Prod.fst := (natLookup_eq_none_iff m k).mp hn
    simp [List.nodup_append, h, hk]

theorem mdelN_lookup_same {β : Type} (m : List (Nat × β)) (k : Nat) :
    (mdelN m k).lookup k = none := by
  unfold mdelN
  rw [natLookup_eq_none_iff]
  intro hmem
  obtain ⟨p, hp, hfst⟩ := List.mem_map.mp hmem
  have := (List.mem_filter.mp hp).2
  simp [hfst] at this

theorem mdelN_lookup_other {β : Type} (m : List (Nat × β)) (k k' : Nat) (h : k' ≠ k) :
    (mdelN m k).lookup k' = m.lookup k' := by
  unfold mdelN
  apply natLookup_filter_of_ne
  intro v
  simp [h]

theorem keys_mdelN {β : Type} (m : List (Nat × β)) (k : Nat) :
    (mdelN m k).map Prod.fst = (m.map Prod.fst).filter (fun x => x ≠ k) := by
  unfold mdelN
  induction m with
  | nil => rfl
  | cons p rest ih =>
    simp only [ne_eq, decide_not] at ih ⊢
    by_cases hpk : p.1 = k
    · simp [List.filter_cons, hpk, ih]
    · simp [List.filter_cons, hpk, ih]

theorem mem_mdelN_of_ne {β : Type} {m : List (Nat × β)} {k : Nat} {p : Nat × β}
    (hm : p ∈ m) (hne : p.1 ≠ k) : p ∈ mdelN m k := by
  unfold mdelN
  exact List.mem_filter.mpr ⟨hm, by simp [hne]⟩

theorem nodup_keys_mdelN {β : Type} (m : List (Nat × β)) (k : Nat)
    (h : (m.map Prod.fst).Nodup) : ((mdelN m k).map Prod.fst).Nodup := by
  rw [keys_mdelN]
  exact h.filter _

theorem nodup_keys_filter {β : Type} (m : List (Nat × β)) (q : Nat × β → Bool)
    (h : (m.map Prod.fst).Nodup) : ((m.filter q).map Prod.fst).Nodup := by
  have hsub : List.Sublist ((m.filter q).map Prod.fst) (m.map Prod.fst) :=
    List.Sublist.map Prod.fst (List.filter_sublist m)
  exact h.sublist hsub

/-! ## Claim C10 -/

/-- Claim C10: for every canvas and every visibility value among `private`,
`collaborative`, `public`, `updateCanvasVisibility` performs a single update
that writes the requested `visibility`, the legacy `isPublic` boolean equal to
`visibility = "public"`, and a fresh `updatedAt`, leaving every other column
unchanged; for any other value it throws (with the source's message) without
modifying the canvas. -/
theorem C10_visibility_legacy_flag (canvas : CanvasRow) (v : String) (now : Nat) :
    (v = "private" ∨ v = "collaborative" ∨ v = "public" →
      updateCanvasVisibility canvas v now =
        Except.ok { canvas with
          visibility := v
          isPublic := decide (v = "public")
          updatedAt := now }) ∧
    (¬(v = "private" ∨ v = "collaborative" ∨ v = "public") →
      updateCanvasVisibility canvas v now =
        Except.error
          "Invalid visibility value. Must be 'private', 'collaborative', or 'public'") := by
  constructor
  · intro h
    have hc : (["private", "collaborative", "public"].contains v) = true := by
      rcases h with h | h | h <;> simp [h]
    simp only [updateCanvasVisibility, hc]
    rfl
  · intro h
    have h1 : v ≠ "private" := fun hh => h (Or.inl hh)
    have h2 : v ≠ "collaborative" := fun hh => h (Or.inr (Or.inl hh))
    have h3 : v ≠ "public" := fun hh => h (Or.inr (Or.inr hh))
    have hc : (["private", "collaborative", "public"].contains v) = false := by
      simp [List.contains, List.elem_cons, h1, h2, h3]
    unfold updateCanvasVisibility
    rw [hc]
    simp

/-- Witness for C10 at a concrete canvas and the value `public`. -/
theorem C10_visibility_legacy_flag_witness :
    ("public" = "private" ∨ "public" = "collaborative" ∨ "public" = "public") ∧
    updateCanvasVisibility wCanvas "public" 42 =
      Except.ok { wCanvas with
        visibility := "public"
        isPublic := decide ("public" = "public")
        updatedAt := 42 } :=
  ⟨by decide, (C10_visibility_legacy_flag wCanvas "public" 42).1 (by decide)⟩

/-! ## Claim C7 -/

/-- Claim C7: when `replaceCanvasState` does not report success (it resolved
`false` or rejected), the save route attempts the timestamp-only fallback and,
when that fallback succeeds, answers 207 with `partial: true` — a status
distinct from full success (200) and total failure (500); full success is
reported exactly when `replaceCanvasState` reported success. -/
theorem C7_save_fallback (r : SaveOutcome) (t : Bool) :
    ((putCanvasStateRespond r t).success = true ↔ r = SaveOutcome.ok) ∧
    (r = SaveOutcome.ok →
      putCanvasStateRespond r t =
        { status := 200, success := true, markedPartial := false, fallbackTried := false }) ∧
    (r ≠ SaveOutcome.ok → (putCanvasStateRespond r t).fallbackTried = true) ∧
    (r ≠ SaveOutcome.ok → t = true →
      putCanvasStateRespond r t =
        { status := 207, success := false, markedPartial := true, fallbackTried := true }) ∧
    (r ≠ SaveOutcome.ok → t = true →
      (putCanvasStateRespond r t).status ≠ 200 ∧ (putCanvasStateRespond r t).status ≠ 500) := by
  cases r <;> cases t <;> simp [putCanvasStateRespond]

/-- Witness for C7: the database rejected, the timestamp fallback succeeded. -/
theorem C7_save_fallback_witness :
    (SaveOutcome.threw ≠ SaveOutcome.ok) ∧
    putCanvasStateRespond SaveOutcome.threw true =
      { status := 207, success := false, markedPartial := true, fallbackTried := true } :=
  ⟨by decide, (C7_save_fallback SaveOutcome.threw true).2.2.2.1 (by decide) rfl⟩

/-! ## Claim C9 -/

theorem insertElements_length (cid : Nat) :
    ∀ (els : List InputElement) (n : Nat) (cmap : List (String × Nat))
      (amap : List (String × String)),
      (insertElements cid els n cmap amap).1.length =
        (els.filter (fun el => (truthy? el.type).isSome)).length := by
  intro els
  induction els with
  | nil => intro n cmap amap; rfl
  | cons el rest ih =>
    intro n cmap amap
    cases ht : truthy? el.type with
    | none => simp [insertElements, ht, List.filter_cons, ih]
    | some w => simp [insertElements, ht, List.filter_cons, ih]

theorem insertElements_content_default (cid : Nat) :
    ∀ (els : List InputElement) (n : Nat) (cmap : List (String × Nat))
      (amap : List (String × String)) (el : InputElement),
      el ∈ els → (truthy? el.type).isSome → el.dataContent = none →
      ∃ r ∈ (insertElements cid els n cmap amap).1,
        r.content = [("_clientId", strOf el.id), ("clientId", strOf el.id)] := by
  intro els
  induction els with
  | nil => intro n cmap amap el hmem; cases hmem
  | cons e rest ih =>
    intro n cmap amap el hmem htype hcontent
    rcases List.mem_cons.mp hmem with heq | htail
    · subst heq
      obtain ⟨w, hw⟩ := Option.isSome_iff_exists.mp htype
      refine ⟨mkElementRow cid n el, ?_, ?_⟩
      · simp [insertElements, hw]
      · simp [mkElementRow, hcontent, jset]
    · cases ht : truthy? e.type with
      | none =>
        obtain ⟨r, hr, hc⟩ := ih n cmap amap el htail htype hcontent
        exact ⟨r, by simpa [insertElements, ht] using hr, hc⟩
      | some w =>
        obtain ⟨r, hr, hc⟩ := ih (n + 1) (mapSet cmap (strOf e.id) n)
          (harvestAliases amap e (strOf e.id)) el htail htype hcontent
        refine ⟨r, ?_, hc⟩
        simp only [insertElements, ht]
        exact List.mem_cons_of_mem _ hr

/-- Claim C9 (amended): an element without a node kind (`type` falsy) is
skipped while every other element of the batch is still inserted, and a
malformed element never aborts the batch; a missing content payload does NOT
cause a skip — the element is inserted with a content object holding only the
stamped client ids. -/
theorem C9_malformed_elements_skipped (cid startId : Nat) (els : List InputElement)
    (conns : List InputConnection) :
    ((replaceCanvasState cid startId els conns).2 = true) ∧
    ((replaceCanvasState cid startId els conns).1.elements.length =
      (els.filter (fun el => (truthy? el.type).isSome)).length) ∧
    (∀ el ∈ els, (truthy? el.type).isSome → el.dataContent = none →
      ∃ r ∈ (replaceCanvasState cid startId els conns).1.elements,
        r.content = [("_clientId", strOf el.id), ("clientId", strOf el.id)]) := by
  refine ⟨rfl, ?_, ?_⟩
  · simpa [replaceCanvasState] using insertElements_length cid els startId [] []
  · intro el hmem htype hcontent
    obtain ⟨r, hr, hc⟩ :=
      insertElements_content_default cid els startId [] [] el hmem htype hcontent
    exact ⟨r, by simpa [replaceCanvasState] using hr, hc⟩

/-- Witness for C9: a batch holding one kinded element without content and one
kindless element stores exactly the kinded one, with defaulted content. -/
theorem C9_malformed_elements_skipped_witness :
    ((replaceCanvasState 1 1 [wElNoType, wElB] []).2 = true) ∧
    ((replaceCanvasState 1 1 [wElNoType, wElB] []).1.elements.length =
      ([wElNoType, wElB].filter (fun el => (truthy? el.type).isSome)).length) ∧
    (∃ r ∈ (replaceCanvasState 1 1 [wElNoType, wElB] []).1.elements,
      r.content = [("_clientId", strOf wElB.id), ("clientId", strOf wElB.id)]) :=
  ⟨(C9_malformed_elements_skipped 1 1 [wElNoType, wElB] []).1,
   (C9_malformed_elements_skipped 1 1 [wElNoType, wElB] []).2.1,
   (C9_malformed_elements_skipped 1 1 [wElNoType, wElB] []).2.2 wElB (by decide)
     (by decide) (by decide)⟩

/-- Counterexample to claim C9 as stated: the claim says an element that does
not carry BOTH a content payload and a node kind is skipped, so `wElB` (node
kind present, content payload absent) should not be inserted; the code inserts
it — only a falsy `type` causes a skip, a missing content payload is defaulted
(src/server/openai.ts, lines 1781-1785 versus 1840-1844). -/
theorem C9_claim_counterexample :
    (replaceCanvasState 1 1 [wElB] []).1.elements.length = 1 := by
  rfl

/-! ## Claim C2 -/

theorem mapSet_lookup_cases {β : Type} (m : List (String × β)) (k k' : String) (v : β) (w : β)
    (h : (mapSet m k v).lookup k' = some w) :
    (k' = k ∧ w = v) ∨ m.lookup k' = some w := by
  unfold mapSet at h
  by_cases hk : k' = k
  · subst hk
    have hbeq : (k' == k') = true := by simp
    simp only [List.lookup, hbeq] at h
    cases h
    exact Or.inl ⟨rfl, rfl⟩
  · have hbeq : (k' == k) = false := beq_eq_false_iff_ne.mpr hk
    simp only [List.lookup, hbeq] at h
    right
    calc m.lookup k'
        = (m.filter (fun p => decide (p.1 ≠ k))).lookup k' := by
          rw [lookup_filter_of_ne m k' (fun p => decide (p.1 ≠ k))]
          intro v2
          simp [hk]
      _ = some w := h

theorem insertElements_cmap_values (cid : Nat) :
    ∀ (els : List InputElement) (n : Nat) (cmap : List (String × Nat))
      (amap : List (String × String)) (k : String) (d : Nat),
      (insertElements cid els n cmap amap).2.1.lookup k = some d →
      cmap.lookup k = some d ∨ d ∈ (insertElements cid els n cmap amap).1.map ElementRow.id := by
  intro els
  induction els with
  | nil => intro n cmap amap k d h; exact Or.inl h
  | cons el rest ih =>
    intro n cmap amap k d h
    cases ht : truthy? el.type with
    | none =>
      simp only [insertElements, ht] at h ⊢
      exact ih n cmap amap k d h
    | some w =>
      simp only [insertElements, ht] at h ⊢
      rcases ih (n + 1) (mapSet cmap (strOf el.id) n)
          (harvestAliases amap el (strOf el.id)) k d h with h1 | h1
      · rcases mapSet_lookup_cases cmap (strOf el.id) k n d h1 with ⟨_, hd⟩ | h2
        · subst hd
          right
          simp [mkElementRow]
        · exact Or.inl h2
      · right
        right
        exact h1

theorem insertConnections_mem (cid : Nat) (cmap : List (String × Nat)) :
    ∀ (l : List InputConnection) (nid : Nat) (crow : ConnectionRow),
      crow ∈ (insertConnections cid cmap l nid).1 →
      ∃ conn ∈ l, ∃ i, mkConnRow cid i cmap conn = some crow := by
  intro l
  induction l with
  | nil => intro nid crow h; cases h
  | cons conn rest ih =>
    intro nid crow h
    cases hmk : mkConnRow cid nid cmap conn with
    | none =>
      simp only [insertConnections, hmk] at h
      obtain ⟨c, hc, hi⟩ := ih nid crow h
      exact ⟨c, List.mem_cons_of_mem _ hc, hi⟩
    | some row =>
      simp only [insertConnections, hmk] at h
      rcases List.mem_cons.mp h with heq | htail
      · exact ⟨conn, List.mem_cons_self _ _, nid, by rw [hmk, heq]⟩
      · obtain ⟨c, hc, hi⟩ := ih (nid + 1) crow htail
        exact ⟨c, List.mem_cons_of_mem _ hc, hi⟩

theorem mkConnRow_endpoints (cid i : Nat) (cmap : List (String × Nat))
    (conn : InputConnection) (crow : ConnectionRow)
    (h : mkConnRow cid i cmap conn = some crow) :
    (∃ d, crow.sourceId = some d ∧ cmap.lookup (strOf conn.source) = some d ∧ d ≠ 0) ∧
    (∃ d, crow.targetId = some d ∧ cmap.lookup (strOf conn.target) = some d ∧ d ≠ 0) := by
  unfold mkConnRow at h
  cases hs : cmap.lookup (strOf conn.source) with
  | none => simp [hs] at h
  | some sd =>
    cases htl : cmap.lookup (strOf conn.target) with
    | none => simp [hs, htl] at h
    | some td =>
      simp only [hs, htl] at h
      by_cases hz : sd = 0 ∨ td = 0
      · rw [if_pos hz] at h
        cases h
      · rw [if_neg hz] at h
        cases h
        push_neg at hz
        exact ⟨⟨sd, rfl, rfl, hz.1⟩, ⟨td, rfl, rfl, hz.2⟩⟩

/-- Claim C2: after any `replaceCanvasState`, every stored connection's source
and target foreign keys name database ids of elements stored by the same call
(no dangling or fabricated endpoint survives the `validConnections` filter),
and the operation still reports success whatever edges were dropped. -/
theorem C2_no_dangling_edges (cid startId : Nat) (els : List InputElement)
    (conns : List InputConnection) :
    ((replaceCanvasState cid startId els conns).2 = true) ∧
    (∀ crow ∈ (replaceCanvasState cid startId els conns).1.connections,
      (∃ d, crow.sourceId = some d ∧
        d ∈ (replaceCanvasState cid startId els conns).1.elements.map ElementRow.id) ∧
      (∃ d, crow.targetId = some d ∧
        d ∈ (replaceCanvasState cid startId els conns).1.elements.map ElementRow.id)) := by
  refine ⟨rfl, ?_⟩
  intro crow hcrow
  simp only [replaceCanvasState] at hcrow ⊢
  obtain ⟨conn, _, i, hmk⟩ := insertConnections_mem cid _ _ _ crow hcrow
  obtain ⟨⟨sd, hs1, hs2, _⟩, ⟨td, ht1, ht2, _⟩⟩ := mkConnRow_endpoints _ i _ conn crow hmk
  constructor
  · refine ⟨sd, hs1, ?_⟩
    rcases insertElements_cmap_values cid els startId [] [] _ sd hs2 with h0 | h0
    · simp [List.lookup] at h0
    · exact h0
  · refine ⟨td, ht1, ?_⟩
    rcases insertElements_cmap_values cid els startId [] [] _ td ht2 with h0 | h0
    · simp [List.lookup] at h0
    · exact h0

/-- Witness for C2 at a concrete input containing one resolvable edge and one
edge whose target names no element: the surviving connection's endpoints are
stored element ids. -/
theorem C2_no_dangling_edges_witness :
    ((replaceCanvasState 1 1 [wElA, wElB] [wConnAB, wConnGhost]).2 = true) ∧
    (∀ crow ∈ (replaceCanvasState 1 1 [wElA, wElB] [wConnAB, wConnGhost]).1.connections,
      (∃ d, crow.sourceId = some d ∧
        d ∈ (replaceCanvasState 1 1 [wElA, wElB] [wConnAB, wConnGhost]).1.elements.map
          ElementRow.id) ∧
      (∃ d, crow.targetId = some d ∧
        d ∈ (replaceCanvasState 1 1 [wElA, wElB] [wConnAB, wConnGhost]).1.elements.map
          ElementRow.id)) :=
  C2_no_dangling_edges 1 1 [wElA, wElB] [wConnAB, wConnGhost]

/-! ## Claim C4 -/

theorem broadcastLoop_attempts (socks : Nat → Option Sock) (ex : Option Nat) :
    ∀ conns : List (Nat × Nat),
      (broadcastLoop socks ex conns).1 =
        conns.filter (fun p => decide (ex ≠ some p.1) && sockOpenB socks p.2) := by
  intro conns
  induction conns with
  | nil => rfl
  | cons p rest ih =>
    by_cases hex : ex = some p.1
    · simp only [broadcastLoop]
      rw [if_pos hex]
      have hd : (decide (ex ≠ some p.1) && sockOpenB socks p.2) = false := by simp [hex]
      simp only [List.filter_cons, hd]
      simpa using ih
    · simp only [broadcastLoop]
      rw [if_neg hex]
      have hd : decide (ex ≠ some p.1) = true := by simp [hex]
      simp only [List.filter_cons, hd, Bool.true_and]
      cases hsk : socks p.2 with
      | none => simp [sockOpenB, hsk, ih, hex]
      | some sock =>
        by_cases hrs : sock.readyState = WS_OPEN
        · have hb : sockOpenB socks p.2 = true := by simp [sockOpenB, hsk, hrs]
          cases hsd : sock.sendOk <;> simp [hrs, hsd, ih, hb, hex]
        · have hb : sockOpenB socks p.2 = false := by
            simp only [sockOpenB, hsk]
            simpa using hrs
          by_cases hcl : sock.readyState = WS_CLOSED ∨ sock.readyState = WS_CLOSING
          · simp [hrs, hcl, ih, hb, hex]
          · simp [hrs, hcl, ih, hb, hex]

theorem broadcastLoop_removed (socks : Nat → Option Sock) (ex : Option Nat) :
    ∀ conns : List (Nat × Nat),
      (broadcastLoop socks ex conns).2.2 =
        (conns.filter (fun p => decide (ex ≠ some p.1) && deliveryFailB socks p.2)).map
          Prod.fst := by
  intro conns
  induction conns with
  | nil => rfl
  | cons p rest ih =>
    by_cases hex : ex = some p.1
    · simp only [broadcastLoop]
      rw [if_pos hex]
      have hd : (decide (ex ≠ some p.1) && deliveryFailB socks p.2) = false := by simp [hex]
      simp only [List.filter_cons, hd]
      simpa using ih
    · simp only [broadcastLoop]
      rw [if_neg hex]
      have hd : decide (ex ≠ some p.1) = true := by simp [hex]
      simp only [List.filter_cons, hd, Bool.true_and]
      cases hsk : socks p.2 with
      | none => simp [deliveryFailB, hsk, ih, hex]
      | some sock =>
        by_cases hrs : sock.readyState = WS_OPEN
        · have hb : deliveryFailB socks p.2 = (!sock.sendOk) := by
            simp [deliveryFailB, hsk, hrs, WS_OPEN, WS_CLOSED, WS_CLOSING]
          cases hsd : sock.sendOk <;> simp [hrs, hsd, ih, hb, hex]
        · by_cases hcl : sock.readyState = WS_CLOSED ∨ sock.readyState = WS_CLOSING
          · have hb : deliveryFailB socks p.2 = true := by
              rcases hcl with hcl | hcl <;>
                simp [deliveryFailB, hsk, hcl, WS_CLOSED, WS_CLOSING]
            simp [hrs, hcl, ih, hb, hex]
          · have hb : deliveryFailB socks p.2 = false := by
              push_neg at hcl
              simp only [deliveryFailB, hsk]
              have e1 : (sock.readyState == WS_CLOSED) = false := by simpa using hcl.1
              have e2 : (sock.readyState == WS_CLOSING) = false := by simpa using hcl.2
              have e3 : (sock.readyState == WS_OPEN) = false := by simpa using hrs
              simp [e1, e2, e3]
            simp [hrs, hcl, ih, hb, hex]

theorem broadcastToCanvas_attempts (socks : Nat → Option Sock) (conns : List (Nat × Nat))
    (ex : Option Nat) :
    (broadcastToCanvas socks conns ex).attempts =
      conns.filter (fun p => decide (ex ≠ some p.1) && sockOpenB socks p.2) := by
  unfold broadcastToCanvas
  by_cases he : conns.isEmpty
  · have h0 : conns = [] := List.isEmpty_iff.mp he
    simp [h0]
  · rw [if_neg (by simpa using he)]
    exact broadcastLoop_attempts socks ex conns

theorem broadcastToCanvas_removed (socks : Nat → Option Sock) (conns : List (Nat × Nat))
    (ex : Option Nat) :
    (broadcastToCanvas socks conns ex).removed =
      (conns.filter (fun p => decide (ex ≠ some p.1) && deliveryFailB socks p.2)).map
        Prod.fst := by
  unfold broadcastToCanvas
  by_cases he : conns.isEmpty
  · have h0 : conns = [] := List.isEmpty_iff.mp he
    simp [h0]
  · rw [if_neg (by simpa using he)]
    exact broadcastLoop_removed socks ex conns

theorem broadcastToCanvas_registry (socks : Nat → Option Sock) (conns : List (Nat × Nat))
    (ex : Option Nat) :
    (broadcastToCanvas socks conns ex).registry =
      conns.filter (fun p => !((broadcastToCanvas socks conns ex).removed.contains p.1)) := by
  unfold broadcastToCanvas
  by_cases he : conns.isEmpty
  · have h0 : conns = [] := List.isEmpty_iff.mp he
    simp [h0]
  · rw [if_neg (by simpa using he)]

theorem not_mem_removed_excluded (socks : Nat → Option Sock) (conns : List (Nat × Nat))
    (u : Nat) : u ∉ (broadcastToCanvas socks conns (some u)).removed := by
  rw [broadcastToCanvas_removed]
  intro hu
  obtain ⟨p, hpf, hfst⟩ := List.mem_map.mp hu
  have h2 := (List.mem_filter.mp hpf).2
  simp only [Bool.and_eq_true, decide_eq_true_eq] at h2
  exact h2.1 (by rw [hfst])

theorem broadcast_registry_lookup_excluded (socks : Nat → Option Sock)
    (conns : List (Nat × Nat)) (u : Nat) :
    (broadcastToCanvas socks conns (some u)).registry.lookup u = conns.lookup u := by
  rw [broadcastToCanvas_registry]
  apply natLookup_filter_of_ne
  intro v
  have hnm := not_mem_removed_excluded socks conns u
  simp only [Bool.not_eq_true']
  simpa using hnm

theorem broadcast_registry_keys_nodup (socks : Nat → Option Sock)
    (conns : List (Nat × Nat)) (ex : Option Nat)
    (h : (conns.map Prod.fst).Nodup) :
    ((broadcastToCanvas socks conns ex).registry.map Prod.fst).Nodup := by
  rw [broadcastToCanvas_registry]
  exact nodup_keys_filter _ _ h

/-- Claim C4 (amended): `broadcastToCanvas` never attempts delivery to the
excluded user; it attempts delivery exactly once to every other registered
entry whose socket is open and to nobody else; it serializes the message at
most once — exactly once whenever the per-canvas registry is nonempty (the
empty registry returns before serializing); and the registry after the call is
the registry before it minus exactly the entries whose delivery failed (absent,
closing/closed, or throwing socket) — every removed user is such a failure and
every non-excluded failed entry is removed — applied only after the
iteration. -/
theorem C4_broadcast_fanout (socks : Nat → Option Sock) (conns : List (Nat × Nat))
    (ex : Option Nat) (hkeys : (conns.map Prod.fst).Nodup) :
    (∀ u, ex = some u → ∀ s, (u, s) ∉ (broadcastToCanvas socks conns ex).attempts) ∧
    ((broadcastToCanvas socks conns ex).attempts.Nodup ∧
      ∀ p ∈ conns, ex ≠ some p.1 → sockOpenB socks p.2 = true →
        p ∈ (broadcastToCanvas socks conns ex).attempts) ∧
    (∀ p ∈ (broadcastToCanvas socks conns ex).attempts,
      p ∈ conns ∧ ex ≠ some p.1 ∧ sockOpenB socks p.2 = true) ∧
    ((broadcastToCanvas socks conns ex).serializations ≤ 1) ∧
    (conns ≠ [] → (broadcastToCanvas socks conns ex).serializations = 1) ∧
    ((broadcastToCanvas socks conns ex).registry =
      conns.filter (fun p => !((broadcastToCanvas socks conns ex).removed.contains p.1))) ∧
    (∀ u ∈ (broadcastToCanvas socks conns ex).removed,
      ex ≠ some u ∧ ∃ s, (u, s) ∈ conns ∧ deliveryFailB socks s = true) ∧
    (∀ p ∈ conns, ex ≠ some p.1 → deliveryFailB socks p.2 = true →
      p.1 ∈ (broadcastToCanvas socks conns ex).removed) := by
  have hatt := broadcastToCanvas_attempts socks conns ex
  have hrem := broadcastToCanvas_removed socks conns ex
  refine ⟨?_, ?_, ?_, ?_, ?_, ?_, ?_, ?_⟩
  · intro u hu s hmem
    rw [hatt] at hmem
    have := (List.mem_filter.mp hmem).2
    simp [hu] at this
  · constructor
    · rw [hatt]
      have hnd : conns.Nodup := List.Nodup.of_map Prod.fst hkeys
      exact hnd.filter _
    · intro p hp hex hopen
      rw [hatt]
      exact List.mem_filter.mpr ⟨hp, by simp [hex, hopen]⟩
  · intro p hmem
    rw [hatt] at hmem
    have h1 := (List.mem_filter.mp hmem).1
    have h2 := (List.mem_filter.mp hmem).2
    simp only [Bool.and_eq_true, decide_eq_true_eq] at h2
    exact ⟨h1, h2.1, h2.2⟩
  · unfold broadcastToCanvas
    by_cases he : conns.isEmpty
    · simp [he]
    · rw [if_neg (by simpa using he)]
  · intro hne
    unfold broadcastToCanvas
    rw [if_neg (by simpa using hne)]
  · exact broadcastToCanvas_registry socks conns ex
  · intro u hu
    rw [hrem] at hu
    obtain ⟨p, hpf, hfst⟩ := List.mem_map.mp hu
    have h1 := (List.mem_filter.mp hpf).1
    have h2 := (List.mem_filter.mp hpf).2
    simp only [Bool.and_eq_true, decide_eq_true_eq] at h2
    subst hfst
    exact ⟨h2.1, p.2, by simpa using h1, h2.2⟩
  · intro p hp hex hfail
    rw [hrem]
    exact List.mem_map.mpr ⟨p, List.mem_filter.mpr ⟨hp, by simp [hex, hfail]⟩, rfl⟩

/-- Witness for C4 on a canvas with one open recipient, one excluded sender and
one closed socket. -/
theorem C4_broadcast_fanout_witness :
    (([(2, 5), (3, 7), (4, 9)].map (Prod.fst (β := Nat))).Nodup) ∧
    ((broadcastToCanvas
        (fun i => [(5, wSockOpen), (7, wSockOpen),
          (9, { wSockOpen with readyState := WS_CLOSED })].lookup i)
        [(2, 5), (3, 7), (4, 9)] (some 2)).attempts.Nodup ∧
      ∀ p ∈ [(2, 5), (3, 7), (4, 9)],
        some 2 ≠ some p.1 →
        sockOpenB
          (fun i => [(5, wSockOpen), (7, wSockOpen),
            (9, { wSockOpen with readyState := WS_CLOSED })].lookup i) p.2 = true →
        p ∈ (broadcastToCanvas
          (fun i => [(5, wSockOpen), (7, wSockOpen),
            (9, { wSockOpen with readyState := WS_CLOSED })].lookup i)
          [(2, 5), (3, 7), (4, 9)] (some 2)).attempts) ∧
    ((4 : Nat) ∈ (broadcastToCanvas
        (fun i => [(5, wSockOpen), (7, wSockOpen),
          (9, { wSockOpen with readyState := WS_CLOSED })].lookup i)
        [(2, 5), (3, 7), (4, 9)] (some 2)).removed) :=
  ⟨by decide,
   (C4_broadcast_fanout
     (fun i => [(5, wSockOpen), (7, wSockOpen),
       (9, { wSockOpen with readyState := WS_CLOSED })].lookup i)
     [(2, 5), (3, 7), (4, 9)] (some 2) (by decide)).2.1,
   (C4_broadcast_fanout
     (fun i => [(5, wSockOpen), (7, wSockOpen),
       (9, { wSockOpen with readyState := WS_CLOSED })].lookup i)
     [(2, 5), (3, 7), (4, 9)] (some 2) (by decide)).2.2.2.2.2.2.2
     (4, 9) (by decide) (by decide) (by decide)⟩

/-- Counterexample to claim C4 as stated: the claim says the message is
serialized exactly once for the whole broadcast, but a broadcast over a canvas
with no registered channels returns before `JSON.stringify`
(src/unnamed/part_001, lines 113-119), so it serializes zero times. -/
theorem C4_claim_counterexample :
    (broadcastToCanvas (fun i => [].lookup i) [] none).serializations = 0 := by
  rfl

/-! ## Claim C6 -/

/-- Claim C6 (amended): the minimal shape check of the message handler tests
the message kind, canvasId and userId (each with JavaScript falsiness, so a
missing field and a zero/empty field coincide) — the username is NOT checked.
A frame that fails `JSON.parse`, or an envelope failing this check, is answered
with an `error` envelope on the same still-open channel and produces no state
change at all: no registration, no eviction, no broadcast. -/
theorem C6_invalid_envelope_rejected (st : ServerState) (sid : Nat) (sock : Sock)
    (h1 : st.socks.lookup sid = some sock) (h2 : sock.readyState = WS_OPEN) :
    (handleMessage st sid none =
      (st, [Effect.send sid (errEnvelope "Invalid JSON message format" 0 0)])) ∧
    (∀ data : WireMsg,
      data.canvasId.getD 0 = 0 ∨ data.userId.getD 0 = 0 ∨ (truthy? data.type).isNone →
      handleMessage st sid (some data) =
        (st, [Effect.send sid (errEnvelope
          "Message missing required fields (canvasId, userId, or type)"
          (data.canvasId.getD 0) (data.userId.getD 0))])) := by
  have hno : ¬ sock.readyState ≠ WS_OPEN := by simp [h2]
  constructor
  · simp only [handleMessage, h1]
    rw [if_neg hno]
  · intro data hbad
    simp only [handleMessage, h1]
    rw [if_neg hno, if_pos hbad]

/-- Witness for C6: an envelope with canvasId 0 is rejected without touching
the registry. -/
theorem C6_invalid_envelope_rejected_witness :
    (wState.socks.lookup 7 = some wSockOpen) ∧
    handleMessage wState 7 (some wBadShape) =
      (wState, [Effect.send 7 (errEnvelope
        "Message missing required fields (canvasId, userId, or type)"
        (wBadShape.canvasId.getD 0) (wBadShape.userId.getD 0))]) :=
  ⟨by decide,
   (C6_invalid_envelope_rejected wState 7 wSockOpen (by decide) (by decide)).2
     wBadShape (by decide)⟩

/-- Counterexample to claim C6 as stated: the claim includes the username in
the minimal shape check, so `wNoUsername` (kind, canvasId and userId present,
username absent) should be rejected with an `error` envelope and cause no
state change; the code never checks the username (src/unnamed/part_001,
line 1723): the message is processed, the sender is registered for
(canvas 1, user 2), and no `error` envelope is sent. -/
theorem C6_claim_counterexample :
    ((((handleMessage ⟨[(7, wSockOpen)], []⟩ 7 (some wNoUsername)).1.registry.lookup 1).getD
        []).lookup 2 = some 7) ∧
    (((handleMessage ⟨[(7, wSockOpen)], []⟩ 7 (some wNoUsername)).2.all
      (fun e => match e with
        | Effect.send _ m => m.type ≠ "error"
        | _ => true)) = true) := by
  constructor
  · rfl
  · rfl

/-! ## Claim C3 -/

theorem handleMessage_valid (st : ServerState) (sid : Nat) (sock : Sock) (data : WireMsg)
    (hsock : st.socks.lookup sid = some sock) (hopen : sock.readyState = WS_OPEN)
    (hc : data.canvasId.getD 0 ≠ 0) (hu : data.userId.getD 0 ≠ 0)
    (ht : (truthy? data.type).isSome) :
    handleMessage st sid (some data) =
      (let canvasId := data.canvasId.getD 0
       let userId := data.userId.getD 0
       let socks1 := msetN st.socks sid (updSock sock canvasId userId data.username)
       let registry0 := getCanvasRegistry st.registry canvasId
       let cu0 := (registry0.lookup canvasId).getD []
       let reg := registerConnection cu0 userId sid
       let dc := dispatchCase socks1 canvasId userId sid data.username data.payload
         (data.type.getD "") reg.1
       ({ socks := socks1, registry := msetN registry0 canvasId dc.1 },
        reg.2 ++ [Effect.send sid (ackMsg canvasId userId data.username reg.1)] ++ dc.2)) := by
  have hno : ¬ sock.readyState ≠ WS_OPEN := by simp [hopen]
  have ht2 : ¬ (truthy? data.type).isNone = true := by
    cases h0 : truthy? data.type with
    | none => rw [h0] at ht; cases ht
    | some w => simp
  have hbad : ¬(data.canvasId.getD 0 = 0 ∨ data.userId.getD 0 = 0 ∨
      (truthy? data.type).isNone) := by
    push_neg
    exact ⟨hc, hu, ht2⟩
  simp only [handleMessage, hsock]
  rw [if_neg hno, if_neg hbad]

theorem registerConnection_lookup (cu0 : List (Nat × Nat)) (userId sid : Nat) :
    (registerConnection cu0 userId sid).1.lookup userId = some sid := by
  cases h : cu0.lookup userId with
  | none => simp only [registerConnection, h]; exact msetN_lookup_same _ _ _
  | some oldSid =>
    by_cases ho : oldSid ≠ sid
    · simp only [registerConnection, h]
      rw [if_pos ho]
      exact msetN_lookup_same _ _ _
    · simp only [registerConnection, h]
      rw [if_neg ho]
      exact msetN_lookup_same _ _ _

theorem registerConnection_close (cu0 : List (Nat × Nat)) (userId sid oldSid : Nat)
    (h : cu0.lookup userId = some oldSid) (hne : oldSid ≠ sid) :
    (registerConnection cu0 userId sid).2 = [Effect.close oldSid 1000] := by
  simp only [registerConnection, h]
  rw [if_pos hne]

theorem registerConnection_keys_nodup (cu0 : List (Nat × Nat)) (userId sid : Nat)
    (h : (cu0.map Prod.fst).Nodup) :
    ((registerConnection cu0 userId sid).1.map Prod.fst).Nodup := by
  cases hl : cu0.lookup userId with
  | none =>
    simp only [registerConnection, hl]
    exact nodup_keys_msetN _ _ _ h
  | some oldSid =>
    by_cases ho : oldSid ≠ sid
    · simp only [registerConnection, hl]
      rw [if_pos ho]
      exact nodup_keys_msetN _ _ _ (nodup_keys_mdelN _ _ h)
    · simp only [registerConnection, hl]
      rw [if_neg ho]
      exact nodup_keys_msetN _ _ _ h

theorem dispatchCase_lookup (socks1 : List (Nat × Sock)) (canvasId userId sid : Nat)
    (uname payload : Option String) (mtype : String) (cu2 : List (Nat × Nat))
    (hcu : cu2.lookup userId = some sid)
    (hleave : mtype ≠ "leave-canvas") :
    (dispatchCase socks1 canvasId userId sid uname payload mtype cu2).1.lookup userId =
      some sid := by
  unfold dispatchCase
  by_cases hj : mtype = "join-canvas"
  · rw [if_pos hj]
    simp only [hcu, if_pos]
    rw [broadcast_registry_lookup_excluded]
    exact hcu
  · rw [if_neg hj]
    rw [if_neg hleave]
    by_cases hr : mtype = "canvas-update" ∨ mtype = "cursor-position"
    · rw [if_pos hr]
      rw [broadcast_registry_lookup_excluded]
      exact hcu
    · rw [if_neg hr]
      exact hcu

theorem dispatchCase_keys_nodup (socks1 : List (Nat × Sock)) (canvasId userId sid : Nat)
    (uname payload : Option String) (mtype : String) (cu2 : List (Nat × Nat))
    (hnd : (cu2.map Prod.fst).Nodup) :
    ((dispatchCase socks1 canvasId userId sid uname payload mtype cu2).1.map
      Prod.fst).Nodup := by
  unfold dispatchCase
  by_cases hj : mtype = "join-canvas"
  · rw [if_pos hj]
    apply broadcast_registry_keys_nodup
    by_cases hcu : cu2.lookup userId = some sid
    · rw [if_pos hcu]; exact hnd
    · rw [if_neg hcu]; exact nodup_keys_msetN _ _ _ hnd
  · rw [if_neg hj]
    by_cases hl : mtype = "leave-canvas"
    · rw [if_pos hl]
      exact nodup_keys_mdelN _ _ (broadcast_registry_keys_nodup _ _ _ hnd)
    · rw [if_neg hl]
      by_cases hr : mtype = "canvas-update" ∨ mtype = "cursor-position"
      · rw [if_pos hr]
        exact broadcast_registry_keys_nodup _ _ _ hnd
      · rw [if_neg hr]
        exact hnd

theorem getCanvasRegistry_getD (reg : List (Nat × List (Nat × Nat))) (c : Nat) :
    ((getCanvasRegistry reg c).lookup c).getD [] = (reg.lookup c).getD [] := by
  unfold getCanvasRegistry
  by_cases h : (reg.lookup c).isSome
  · rw [if_pos h]
  · rw [if_neg h]
    rw [msetN_lookup_same]
    have h0 := Option.not_isSome_iff_eq_none.mp h
    simp [h0]

theorem getCanvasRegistry_keys_nodup (reg : List (Nat × List (Nat × Nat))) (c : Nat)
    (h : (reg.map Prod.fst).Nodup) :
    ((getCanvasRegistry reg c).map Prod.fst).Nodup := by
  unfold getCanvasRegistry
  by_cases hl : (reg.lookup c).isSome
  · rw [if_pos hl]; exact h
  · rw [if_neg hl]; exact nodup_keys_msetN _ _ _ h

theorem getCanvasRegistry_inner (reg : List (Nat × List (Nat × Nat))) (c : Nat)
    (h : ∀ p ∈ reg, (p.2.map Prod.fst).Nodup) :
    ∀ p ∈ getCanvasRegistry reg c, (p.2.map Prod.fst).Nodup := by
  unfold getCanvasRegistry
  by_cases hl : (reg.lookup c).isSome
  · rw [if_pos hl]; exact h
  · rw [if_neg hl]
    intro p hp
    rcases mem_msetN hp with heq | hmem
    · subst heq; simp
    · exact h p hmem

theorem cu0_keys_nodup (st : ServerState) (c : Nat) (hwf : regWF st) :
    ((((getCanvasRegistry st.registry c).lookup c).getD []).map Prod.fst).Nodup := by
  rw [getCanvasRegistry_getD]
  cases hl : st.registry.lookup c with
  | none => simp
  | some m =>
    have := hwf.2 (c, m) (natLookup_mem hl)
    simpa using this

/-- Claim C3: the registry keeps at most one live channel per
(canvasId, userId) — unique canvas keys and unique user keys survive every
valid-message step — and processing a message from a new socket `sid` for a
pair already registered to a different socket `oldSid` leaves `sid` as the one
surviving registration (for any kind that does not immediately unregister,
i.e. anything but `leave-canvas`) and emits a close signal with the
normal-closure code 1000 to `oldSid`. -/
theorem C3_registry_single_channel (st : ServerState) (sid : Nat) (sock : Sock)
    (data : WireMsg)
    (hwf : regWF st)
    (hsock : st.socks.lookup sid = some sock)
    (hopen : sock.readyState = WS_OPEN)
    (hc : data.canvasId.getD 0 ≠ 0) (hu : data.userId.getD 0 ≠ 0)
    (ht : (truthy? data.type).isSome) :
    regWF (handleMessage st sid (some data)).1 ∧
    (data.type.getD "" ≠ "leave-canvas" →
      (((handleMessage st sid (some data)).1.registry.lookup
        (data.canvasId.getD 0)).getD []).lookup (data.userId.getD 0) = some sid) ∧
    (∀ oldSid,
      ((st.registry.lookup (data.canvasId.getD 0)).getD []).lookup (data.userId.getD 0)
        = some oldSid →
      oldSid ≠ sid →
      Effect.close oldSid 1000 ∈ (handleMessage st sid (some data)).2) := by
  rw [handleMessage_valid st sid sock data hsock hopen hc hu ht]
  dsimp only
  have h0 : ((((getCanvasRegistry st.registry (data.canvasId.getD 0)).lookup
      (data.canvasId.getD 0)).getD []).map Prod.fst).Nodup :=
    cu0_keys_nodup st (data.canvasId.getD 0) hwf
  refine ⟨⟨?_, ?_⟩, ?_, ?_⟩
  · exact nodup_keys_msetN _ _ _
      (getCanvasRegistry_keys_nodup st.registry (data.canvasId.getD 0) hwf.1)
  · intro p hp
    rcases mem_msetN hp with heq | hmem
    · subst heq
      exact dispatchCase_keys_nodup _ _ _ _ _ _ _ _
        (registerConnection_keys_nodup _ _ _ h0)
    · exact getCanvasRegistry_inner st.registry (data.canvasId.getD 0) hwf.2 p hmem
  · intro hleave
    rw [msetN_lookup_same]
    simp only [Option.getD_some]
    exact dispatchCase_lookup _ _ _ _ _ _ _ _
      (registerConnection_lookup _ _ _) hleave
  · intro oldSid hold hne
    have hcu : (((getCanvasRegistry st.registry (data.canvasId.getD 0)).lookup
        (data.canvasId.getD 0)).getD []).lookup (data.userId.getD 0) = some oldSid := by
      rw [getCanvasRegistry_getD]
      exact hold
    rw [registerConnection_close _ _ _ _ hcu hne]
    simp

/-- Witness for C3: user 2 already registered on canvas 1 over socket 5 joins
again over socket 7. -/
theorem C3_registry_single_channel_witness :
    regWF (handleMessage wState 7 (some wJoin)).1 ∧
    (wJoin.type.getD "" ≠ "leave-canvas" →
      (((handleMessage wState 7 (some wJoin)).1.registry.lookup
        (wJoin.canvasId.getD 0)).getD []).lookup (wJoin.userId.getD 0) = some 7) ∧
    (∀ oldSid,
      ((wState.registry.lookup (wJoin.canvasId.getD 0)).getD []).lookup
        (wJoin.userId.getD 0) = some oldSid →
      oldSid ≠ 7 →
      Effect.close oldSid 1000 ∈ (handleMessage wState 7 (some wJoin)).2) :=
  C3_registry_single_channel wState 7 wSockOpen wJoin
    (by constructor
        · decide
        · decide)
    (by decide) (by decide) (by decide) (by decide) (by decide)

/-! ## Claim C5 -/

theorem dispatchCase_join (socks1 : List (Nat × Sock)) (canvasId userId sid : Nat)
    (uname payload : Option String) (cu2 : List (Nat × Nat))
    (hcu : cu2.lookup userId = some sid) :
    dispatchCase socks1 canvasId userId sid uname payload "join-canvas" cu2 =
      ((broadcastToCanvas (fun i => socks1.lookup i) cu2 (some userId)).registry,
       Effect.send sid (activeUsersMsg canvasId
         ((cu2.map Prod.fst).filter (fun i => i ≠ userId))) ::
       (broadcastToCanvas (fun i => socks1.lookup i) cu2 (some userId)).attempts.map
         (fun p => Effect.send p.2 (userJoinedMsg canvasId userId uname))) := by
  unfold dispatchCase
  rw [if_pos rfl, if_pos hcu]

theorem registerConnection_keys_filter (cu0 : List (Nat × Nat)) (userId sid : Nat) :
    ((registerConnection cu0 userId sid).1.map Prod.fst).filter (fun i => i ≠ userId) =
      (cu0.map Prod.fst).filter (fun i => i ≠ userId) := by
  cases hl : cu0.lookup userId with
  | none =>
    simp only [registerConnection, hl]
    rw [keys_msetN_absent _ _ _ hl]
    simp [List.filter_append]
  | some oldSid =>
    by_cases ho : oldSid ≠ sid
    · simp only [registerConnection, hl]
      rw [if_pos ho]
      rw [keys_msetN_absent _ _ _ (mdelN_lookup_same cu0 userId)]
      rw [keys_mdelN]
      simp [List.filter_append, List.filter_filter]
    · simp only [registerConnection, hl]
      rw [if_neg ho]
      rw [keys_msetN_present _ _ _ (by simp [hl])]

theorem registerConnection_mem_of_ne (cu0 : List (Nat × Nat)) (userId sid : Nat)
    (p : Nat × Nat) (hp : p ∈ cu0) (hne : p.1 ≠ userId) :
    p ∈ (registerConnection cu0 userId sid).1 := by
  cases hl : cu0.lookup userId with
  | none =>
    simp only [registerConnection, hl]
    exact mem_msetN_of_ne hp hne
  | some oldSid =>
    by_cases ho : oldSid ≠ sid
    · simp only [registerConnection, hl]
      rw [if_pos ho]
      exact mem_msetN_of_ne (mem_mdelN_of_ne hp hne) hne
    · simp only [registerConnection, hl]
      rw [if_neg ho]
      exact mem_msetN_of_ne hp hne

theorem registerConnection_mem_inv (cu0 : List (Nat × Nat)) (userId sid : Nat)
    (p : Nat × Nat) (hp : p ∈ (registerConnection cu0 userId sid).1) :
    p = (userId, sid) ∨ p ∈ cu0 := by
  cases hl : cu0.lookup userId with
  | none =>
    simp only [registerConnection, hl] at hp
    exact mem_msetN hp
  | some oldSid =>
    by_cases ho : oldSid ≠ sid
    · simp only [registerConnection, hl] at hp
      rw [if_pos ho] at hp
      rcases mem_msetN hp with heq | hmem
      · exact Or.inl heq
      · exact Or.inr (List.mem_of_mem_filter hmem)
    · simp only [registerConnection, hl] at hp
      rw [if_neg ho] at hp
      exact mem_msetN hp

/-- Claim C5: a valid `join-canvas` envelope from an open channel registers the
channel under its (canvasId, userId); the sender is answered with an
`active-users` envelope listing exactly the other userIds registered on that
canvas; a `user-joined` envelope is delivered to every other registered
channel whose socket is open; and (when the sender's socket is registered only
for the sender's own userId) no `user-joined` envelope is sent to the sender's
channel. -/
theorem C5_join_registers_replies_broadcasts (st : ServerState) (sid : Nat) (sock : Sock)
    (data : WireMsg)
    (hsock : st.socks.lookup sid = some sock)
    (hopen : sock.readyState = WS_OPEN)
    (hc : data.canvasId.getD 0 ≠ 0) (hu : data.userId.getD 0 ≠ 0)
    (ht : data.type = some "join-canvas") :
    ((((handleMessage st sid (some data)).1.registry.lookup
        (data.canvasId.getD 0)).getD []).lookup (data.userId.getD 0) = some sid) ∧
    (Effect.send sid (activeUsersMsg (data.canvasId.getD 0)
        ((((st.registry.lookup (data.canvasId.getD 0)).getD []).map Prod.fst).filter
          (fun i => i ≠ data.userId.getD 0))) ∈ (handleMessage st sid (some data)).2) ∧
    (∀ v wsid skv, v ≠ data.userId.getD 0 →
      ((st.registry.lookup (data.canvasId.getD 0)).getD []).lookup v = some wsid →
      st.socks.lookup wsid = some skv → skv.readyState = WS_OPEN →
      Effect.send wsid
        (userJoinedMsg (data.canvasId.getD 0) (data.userId.getD 0) data.username) ∈
          (handleMessage st sid (some data)).2) ∧
    ((∀ p ∈ (st.registry.lookup (data.canvasId.getD 0)).getD [], p.2 = sid →
        p.1 = data.userId.getD 0) →
      ∀ wsid m, m.type = "user-joined" →
        Effect.send wsid m ∈ (handleMessage st sid (some data)).2 → wsid ≠ sid) := by
  have htt : (truthy? data.type).isSome := by rw [ht]; rfl
  have htg : data.type.getD "" = "join-canvas" := by rw [ht]; rfl
  rw [handleMessage_valid st sid sock data hsock hopen hc hu htt]
  dsimp only
  rw [htg]
  rw [dispatchCase_join _ _ _ _ _ _ _ (registerConnection_lookup _ _ _)]
  dsimp only
  have hbridge : (((getCanvasRegistry st.registry (data.canvasId.getD 0)).lookup
      (data.canvasId.getD 0)).getD []) =
      ((st.registry.lookup (data.canvasId.getD 0)).getD []) :=
    getCanvasRegistry_getD st.registry (data.canvasId.getD 0)
  refine ⟨?_, ?_, ?_, ?_⟩
  · rw [msetN_lookup_same]
    simp only [Option.getD_some]
    rw [broadcast_registry_lookup_excluded]
    exact registerConnection_lookup _ _ _
  · apply List.mem_append.mpr
    right
    apply List.mem_cons.mpr
    left
    rw [registerConnection_keys_filter, hbridge]
  · intro v wsid skv hvne hvreg hvs hvopen
    apply List.mem_append.mpr
    right
    apply List.mem_cons.mpr
    right
    have hmem0 : (v, wsid) ∈ ((st.registry.lookup (data.canvasId.getD 0)).getD []) :=
      natLookup_mem hvreg
    have hmem1 : (v, wsid) ∈ (registerConnection
        (((getCanvasRegistry st.registry (data.canvasId.getD 0)).lookup
          (data.canvasId.getD 0)).getD []) (data.userId.getD 0) sid).1 := by
      rw [hbridge]
      exact registerConnection_mem_of_ne _ _ _ _ hmem0 hvne
    have hopen2 : sockOpenB
        (fun i => (msetN st.socks sid (updSock sock (data.canvasId.getD 0)
          (data.userId.getD 0) data.username)).lookup i) wsid = true := by
      by_cases hws : wsid = sid
      · subst hws
        rw [sockOpenB]
        simp only [msetN_lookup_same]
        have : skv = sock := by
          rw [hsock] at hvs
          cases hvs
          rfl
        subst this
        simp [updSock, hvopen, WS_OPEN]
      · rw [sockOpenB]
        simp only [msetN_lookup_other st.socks sid wsid _ hws, hvs]
        simp [hvopen, WS_OPEN]
    apply List.mem_map.mpr
    refine ⟨(v, wsid), ?_, rfl⟩
    rw [broadcastToCanvas_attempts]
    apply List.mem_filter.mpr
    refine ⟨hmem1, ?_⟩
    simp only [Bool.and_eq_true, decide_eq_true_eq]
    constructor
    · intro hcontra
      exact hvne (by cases hcontra; rfl)
    · exact hopen2
  · intro honly wsid m hmt hmem
    intro hws
    rw [hws] at hmem
    rcases List.mem_append.mp hmem with hmem | hmem
    · rcases List.mem_append.mp hmem with hmem | hmem
      · -- close effects: never a send
        cases hcl : (((getCanvasRegistry st.registry (data.canvasId.getD 0)).lookup
            (data.canvasId.getD 0)).getD []).lookup (data.userId.getD 0) with
        | none =>
          simp only [registerConnection, hcl] at hmem
          cases hmem
        | some oldSid =>
          by_cases ho : oldSid ≠ sid
          · simp only [registerConnection, hcl] at hmem
            rw [if_pos ho] at hmem
            have h := List.mem_singleton.mp hmem
            exact Effect.noConfusion h
          · simp only [registerConnection, hcl] at hmem
            rw [if_neg ho] at hmem
            cases hmem
      · -- the acknowledgment: wrong type
        have heq := List.mem_singleton.mp hmem
        injection heq with hs hm
        rw [hm] at hmt
        simp [ackMsg] at hmt
    · rcases List.mem_cons.mp hmem with hmem | hmem
      · -- the active-users reply: wrong type
        injection hmem with hs hm
        rw [hm] at hmt
        simp [activeUsersMsg] at hmt
      · -- the user-joined fanout excludes the sender's userId
        obtain ⟨p, hpf, hpe⟩ := List.mem_map.mp hmem
        injection hpe with hp2 hm2
        rw [broadcastToCanvas_attempts] at hpf
        have h1 := (List.mem_filter.mp hpf).1
        have h2 := (List.mem_filter.mp hpf).2
        simp only [Bool.and_eq_true, decide_eq_true_eq] at h2
        rcases registerConnection_mem_inv _ _ _ _ h1 with heq | hmem0
        · exact h2.1 (by rw [heq])
        · rw [hbridge] at hmem0
          exact h2.1 (by rw [honly p hmem0 hp2])

/-- Witness for C5: user 2 joins canvas 1 from socket 7 while user 3 is
registered over the open socket 5. -/
theorem C5_join_registers_replies_broadcasts_witness :
    ((((handleMessage wState2 7 (some wJoin)).1.registry.lookup
        (wJoin.canvasId.getD 0)).getD []).lookup (wJoin.userId.getD 0) = some 7) ∧
    (Effect.send 7 (activeUsersMsg (wJoin.canvasId.getD 0)
        ((((wState2.registry.lookup (wJoin.canvasId.getD 0)).getD []).map Prod.fst).filter
          (fun i => i ≠ wJoin.userId.getD 0))) ∈ (handleMessage wState2 7 (some wJoin)).2) ∧
    (∀ v wsid skv, v ≠ wJoin.userId.getD 0 →
      ((wState2.registry.lookup (wJoin.canvasId.getD 0)).getD []).lookup v = some wsid →
      wState2.socks.lookup wsid = some skv → skv.readyState = WS_OPEN →
      Effect.send wsid
        (userJoinedMsg (wJoin.canvasId.getD 0) (wJoin.userId.getD 0) wJoin.username) ∈
          (handleMessage wState2 7 (some wJoin)).2) ∧
    ((∀ p ∈ (wState2.registry.lookup (wJoin.canvasId.getD 0)).getD [], p.2 = 7 →
        p.1 = wJoin.userId.getD 0) →
      ∀ wsid m, m.type = "user-joined" →
        Effect.send wsid m ∈ (handleMessage wState2 7 (some wJoin)).2 → wsid ≠ 7) :=
  C5_join_registers_replies_broadcasts wState2 7 wSockOpen wJoin
    (by decide) (by decide) (by decide) (by decide) (by decide)

/-! ## Claim C8 -/

theorem pingCycle_dead (socks : List (Nat × Sock)) (sid : Nat) (sk : Sock)
    (hmem : (sid, sk) ∈ socks) (hdead : sk.isAlive = false) :
    Effect.terminate sid ∈ (pingCycle socks).2 := by
  induction socks with
  | nil => cases hmem
  | cons hd rest ih =>
    obtain ⟨s0, k0⟩ := hd
    rcases List.mem_cons.mp hmem with heq | htail
    · injection heq with h1 h2
      subst h1
      subst h2
      simp only [pingCycle, hdead]
      simp
    · have hr := ih htail
      simp only [pingCycle]
      by_cases ha : k0.isAlive = false
      · simp only [ha]
        simp [hr]
      · have ha2 : k0.isAlive = true := by
          cases h0 : k0.isAlive
          · exact absurd h0 ha
          · rfl
        cases hp : k0.pingOk
        · simp [ha2, hp, hr]
        · simp [ha2, hp, hr]

theorem pingCycle_alive (socks : List (Nat × Sock)) (sid : Nat) (sk : Sock)
    (hmem : (sid, sk) ∈ socks) (halive : sk.isAlive = true) (hping : sk.pingOk = true) :
    (sid, { sk with isAlive := false }) ∈ (pingCycle socks).1 ∧
      Effect.ping sid ∈ (pingCycle socks).2 := by
  induction socks with
  | nil => cases hmem
  | cons hd rest ih =>
    obtain ⟨s0, k0⟩ := hd
    rcases List.mem_cons.mp hmem with heq | htail
    · injection heq with h1 h2
      subst h1
      subst h2
      simp only [pingCycle, halive, hping]
      simp
    · have hr := ih htail
      simp only [pingCycle]
      by_cases ha : k0.isAlive = false
      · simp only [ha]
        simp [hr.1, hr.2]
      · have ha2 : k0.isAlive = true := by
          cases h0 : k0.isAlive
          · exact absurd h0 ha
          · rfl
        cases hp : k0.pingOk
        · simp [ha2, hp, hr.1, hr.2]
        · simp [ha2, hp, hr.1, hr.2]

theorem pingCycle_pingFail (socks : List (Nat × Sock)) (sid : Nat) (sk : Sock)
    (hmem : (sid, sk) ∈ socks) (halive : sk.isAlive = true) (hping : sk.pingOk = false) :
    Effect.terminate sid ∈ (pingCycle socks).2 := by
  induction socks with
  | nil => cases hmem
  | cons hd rest ih =>
    obtain ⟨s0, k0⟩ := hd
    rcases List.mem_cons.mp hmem with heq | htail
    · injection heq with h1 h2
      subst h1
      subst h2
      simp only [pingCycle, halive, hping]
      simp
    · have hr := ih htail
      simp only [pingCycle]
      by_cases ha : k0.isAlive = false
      · simp only [ha]
        simp [hr]
      · have ha2 : k0.isAlive = true := by
          cases h0 : k0.isAlive
          · exact absurd h0 ha
          · rfl
        cases hp : k0.pingOk
        · simp [ha2, hp, hr]
        · simp [ha2, hp, hr]

theorem closeHandler_removes_entry (st : ServerState) (sid : Nat) (sk : Sock) (u c : Nat)
    (hs : st.socks.lookup sid = some sk)
    (hu : sk.userId = some u) (hu0 : u ≠ 0)
    (hc : sk.canvasId = some c) (hc0 : c ≠ 0)
    (hreg : (((st.registry.lookup c).getD []).lookup u).isSome) :
    (((closeHandler st sid).1.registry.lookup c).getD []).lookup u = none := by
  have hbridge := getCanvasRegistry_getD st.registry c
  have hcu : ((((getCanvasRegistry st.registry c).lookup c).getD []).lookup u).isSome := by
    rw [hbridge]
    exact hreg
  simp only [closeHandler, hs, hu, hc]
  rw [if_pos ⟨hu0, hc0⟩, if_pos hcu]
  dsimp only
  rw [msetN_lookup_same]
  simp only [Option.getD_some]
  rw [broadcastToCanvas_registry]
  apply natLookup_filter_none
  exact mdelN_lookup_same _ _

/-- Claim C8: in each probe cycle a channel still marked not-alive is
terminated; every other channel is marked not-alive and sent a probe, and a
channel whose probe send throws is terminated in the same cycle; hence a
channel that stops responding (no message or pong between cycles resets its
flag) is terminated within at most two cycles; and for a terminated channel
whose bookkeeping names a registered (canvasId, userId), the close handler
removes that registry entry. -/
theorem C8_liveness_two_cycle_eviction (socks : List (Nat × Sock)) (sid : Nat) (sk : Sock)
    (hmem : (sid, sk) ∈ socks) :
    (sk.isAlive = false → Effect.terminate sid ∈ (pingCycle socks).2) ∧
    (sk.isAlive = true → sk.pingOk = true →
      ((sid, { sk with isAlive := false }) ∈ (pingCycle socks).1 ∧
        Effect.ping sid ∈ (pingCycle socks).2)) ∧
    (sk.isAlive = true → sk.pingOk = false → Effect.terminate sid ∈ (pingCycle socks).2) ∧
    (Effect.terminate sid ∈ (pingCycle socks).2 ∨
      Effect.terminate sid ∈ (pingCycle (pingCycle socks).1).2) ∧
    (∀ (st : ServerState) (u c : Nat),
      st.socks.lookup sid = some sk → sk.userId = some u → u ≠ 0 →
      sk.canvasId = some c → c ≠ 0 →
      (((st.registry.lookup c).getD []).lookup u).isSome →
      (((closeHandler st sid).1.registry.lookup c).getD []).lookup u = none) := by
  refine ⟨?_, ?_, ?_, ?_, ?_⟩
  · intro hdead
    exact pingCycle_dead socks sid sk hmem hdead
  · intro halive hping
    exact pingCycle_alive socks sid sk hmem halive hping
  · intro halive hping
    exact pingCycle_pingFail socks sid sk hmem halive hping
  · cases halive : sk.isAlive
    · exact Or.inl (pingCycle_dead socks sid sk hmem halive)
    · cases hping : sk.pingOk
      · exact Or.inl (pingCycle_pingFail socks sid sk hmem halive hping)
      · right
        have h1 := (pingCycle_alive socks sid sk hmem halive hping).1
        exact pingCycle_dead _ sid _ h1 rfl
  · intro st u c hs hu hu0 hc hc0 hreg
    exact closeHandler_removes_entry st sid sk u c hs hu hu0 hc hc0 hreg

/-- Witness for C8: an initially alive, healthy channel registered for
(canvas 1, user 2) over socket 5. -/
theorem C8_liveness_two_cycle_eviction_witness :
    ((5, wSockOpen) ∈ [(5, wSockOpen)]) ∧
    (Effect.terminate 5 ∈ (pingCycle [(5, wSockOpen)]).2 ∨
      Effect.terminate 5 ∈ (pingCycle (pingCycle [(5, wSockOpen)]).1).2) ∧
    ((((closeHandler
        ⟨[(5, { wSockOpen with userId := some 2, canvasId := some 1 })], [(1, [(2, 5)])]⟩
        5).1.registry.lookup 1).getD []).lookup 2 = none) :=
  ⟨by decide,
   (C8_liveness_two_cycle_eviction [(5, wSockOpen)] 5 wSockOpen (by decide)).2.2.2.1,
   (C8_liveness_two_cycle_eviction
      [(5, { wSockOpen with userId := some 2, canvasId := some 1 })] 5
      { wSockOpen with userId := some 2, canvasId := some 1 } (by decide)).2.2.2.2
     ⟨[(5, { wSockOpen with userId := some 2, canvasId := some 1 })], [(1, [(2, 5)])]⟩
     2 1 (by decide) (by decide) (by decide) (by decide) (by decide) (by decide)⟩

/-! ## Claim C1 -/

theorem mapSet_lookup_same {β : Type} (m : List (String × β)) (k : String) (v : β) :
    (mapSet m k v).lookup k = some v := by
  unfold mapSet
  simp [List.lookup]

theorem mapSet_lookup_other {β : Type} (m : List (String × β)) (k k' : String) (v : β)
    (h : k' ≠ k) : (mapSet m k v).lookup k' = m.lookup k' := by
  unfold mapSet
  have hbeq : (k' == k) = false := beq_eq_false_iff_ne.mpr h
  simp only [List.lookup, hbeq]
  rw [lookup_filter_of_ne m k' (fun p => decide (p.1 ≠ k))]
  intro v2
  simp [h]

theorem insertElements_style_ids (cid : Nat) :
    ∀ (els : List InputElement) (n : Nat) (cmap : List (String × Nat))
      (amap : List (String × String)),
      (∀ el ∈ els, (truthy? el.type).isSome) →
      (∀ el ∈ els, strOf el.id ≠ "") →
      ((insertElements cid els n cmap amap).1).map
        (fun r => (jtruthy r.style "clientId").getD "") = els.map elKey := by
  intro els
  induction els with
  | nil => intro n cmap amap _ _; rfl
  | cons el rest ih =>
    intro n cmap amap hT hK
    obtain ⟨w, hw⟩ := Option.isSome_iff_exists.mp (hT el (List.mem_cons_self _ _))
    simp only [insertElements, hw, List.map_cons]
    have h1 : (jtruthy (mkElementRow cid n el).style "clientId").getD "" = elKey el := by
      have hst : (mkElementRow cid n el).style =
          jset (el.style.getD []) "clientId" (strOf el.id) := rfl
      rw [hst]
      unfold jtruthy
      rw [jget_jset_same]
      have hne : strOf el.id ≠ "" := hK el (List.mem_cons_self _ _)
      simp [truthy?, hne, elKey]
    have h2 := ih (n + 1) (mapSet cmap (strOf el.id) n) (harvestAliases amap el (strOf el.id))
      (fun e he => hT e (List.mem_cons_of_mem _ he))
      (fun e he => hK e (List.mem_cons_of_mem _ he))
    rw [h1, h2]

theorem insertElements_lookup_mono (cid : Nat) :
    ∀ (els : List InputElement) (n : Nat) (cmap : List (String × Nat))
      (amap : List (String × String)) (k : String),
      (cmap.lookup k).isSome →
      ((insertElements cid els n cmap amap).2.1.lookup k).isSome := by
  intro els
  induction els with
  | nil => intro n cmap amap k h; exact h
  | cons el rest ih =>
    intro n cmap amap k h
    cases ht : truthy? el.type with
    | none =>
      simp only [insertElements, ht]
      exact ih n cmap amap k h
    | some w =>
      simp only [insertElements, ht]
      apply ih
      by_cases hk : k = strOf el.id
      · subst hk
        rw [mapSet_lookup_same]
        rfl
      · rw [mapSet_lookup_other _ _ _ _ hk]
        exact h

theorem insertElements_cmap_mem (cid : Nat) :
    ∀ (els : List InputElement) (n : Nat) (cmap : List (String × Nat))
      (amap : List (String × String)) (el : InputElement),
      el ∈ els → (∀ e ∈ els, (truthy? e.type).isSome) →
      ((insertElements cid els n cmap amap).2.1.lookup (elKey el)).isSome := by
  intro els
  induction els with
  | nil => intro n cmap amap el h; cases h
  | cons e rest ih =>
    intro n cmap amap el hmem hT
    obtain ⟨w, hw⟩ := Option.isSome_iff_exists.mp (hT e (List.mem_cons_self _ _))
    simp only [insertElements, hw]
    rcases List.mem_cons.mp hmem with heq | htail
    · subst heq
      apply insertElements_lookup_mono
      simp only [elKey]
      rw [mapSet_lookup_same]
      rfl
    · exact ih (n + 1) _ _ el htail (fun x hx => hT x (List.mem_cons_of_mem _ hx))

theorem insertElements_row_ids_ge (cid : Nat) :
    ∀ (els : List InputElement) (n : Nat) (cmap : List (String × Nat))
      (amap : List (String × String)) (r : ElementRow),
      r ∈ (insertElements cid els n cmap amap).1 → n ≤ r.id := by
  intro els
  induction els with
  | nil => intro n cmap amap r h; cases h
  | cons el rest ih =>
    intro n cmap amap r h
    cases ht : truthy? el.type with
    | none =>
      simp only [insertElements, ht] at h
      exact ih n cmap amap r h
    | some w =>
      simp only [insertElements, ht] at h
      rcases List.mem_cons.mp h with heq | htail
      · subst heq
        exact Nat.le_refl n
      · have := ih (n + 1) _ _ r htail
        exact Nat.le_of_succ_le this

theorem preprocessConn_id (cmap : List (String × Nat)) (amap : List (String × String))
    (conn : InputConnection) (s t : String)
    (hs : truthy? conn.source = some s) (ht : truthy? conn.target = some t)
    (hsm : (cmap.lookup s).isSome) (htm : (cmap.lookup t).isSome) :
    preprocessConn cmap amap conn = conn := by
  have h1 : resolveClientId cmap amap s = some s := by
    unfold resolveClientId
    rw [if_pos hsm]
  have h2 : resolveClientId cmap amap t = some t := by
    unfold resolveClientId
    rw [if_pos htm]
  simp only [preprocessConn, hs, ht, h1, h2]

theorem connPasses_true (cmap : List (String × Nat)) (conn : InputConnection) (s t : String)
    (hs : truthy? conn.source = some s) (ht : truthy? conn.target = some t)
    (hsm : (cmap.lookup s).isSome) (htm : (cmap.lookup t).isSome) :
    connPasses cmap conn = true := by
  simp only [connPasses, hs, ht]
  simp [hsm, htm]

theorem mkConnRow_some (cid i : Nat) (cmap : List (String × Nat)) (conn : InputConnection)
    (s t : String) (sd td : Nat)
    (hs : conn.source = some s) (ht : conn.target = some t)
    (hsd : cmap.lookup s = some sd) (hsd0 : sd ≠ 0)
    (htd : cmap.lookup t = some td) (htd0 : td ≠ 0)
    (hstyS : ∀ p ∈ conn.style.getD [], p.1 = "sourceClientId" → p.2 = s)
    (hstyT : ∀ p ∈ conn.style.getD [], p.1 = "targetClientId" → p.2 = t) :
    ∃ row, mkConnRow cid i cmap conn = some row ∧
      jget row.style "sourceClientId" = some s ∧
      jget row.style "targetClientId" = some t := by
  have hss : strOf conn.source = s := by rw [hs]; rfl
  have hts : strOf conn.target = t := by rw [ht]; rfl
  have hz : ¬(sd = 0 ∨ td = 0) := by
    intro h0
    rcases h0 with h0 | h0
    · exact hsd0 h0
    · exact htd0 h0
  refine ⟨{ id := i, canvasId := cid, sourceId := some sd, targetId := some td,
            type := (truthy? conn.type).getD "default", animated := conn.animated,
            style := connStyle conn s t sd td }, ?_, ?_, ?_⟩
  · unfold mkConnRow
    rw [hss, hts]
    dsimp only
    simp only [hsd, htd]
    rw [if_neg hz]
  · show jget (connStyle conn s t sd td) "sourceClientId" = some s
    unfold connStyle
    apply jget_objMerge_const
    · simp [jget, List.lookup]
    · exact hstyS
  · show jget (connStyle conn s t sd td) "targetClientId" = some t
    unfold connStyle
    apply jget_objMerge_const
    · simp [jget, List.lookup]
    · exact hstyT

theorem readConnection_stamped (erows : List ElementRow) (emap : List (Nat × String))
    (row : ConnectionRow) (s t : String)
    (hs : jget row.style "sourceClientId" = some s) (hs0 : s ≠ "") (hs1 : s ≠ "undefined")
    (ht : jget row.style "targetClientId" = some t) (ht0 : t ≠ "") (ht1 : t ≠ "undefined") :
    ∃ out, readConnection erows emap row = some out ∧ out.source = s ∧ out.target = t := by
  have hbadS : badId s = false := by simp [badId, hs0, hs1]
  have hbadT : badId t = false := by simp [badId, ht0, ht1]
  have hrs : resolveEndpoint erows emap row.style "sourceClientId" "sourceId" "source"
      row.sourceId = s := by
    unfold resolveEndpoint
    have h0 : endpointFromStyle row.style "sourceClientId" "sourceId" "source" = s := by
      unfold endpointFromStyle
      unfold jtruthy
      rw [hs]
      simp [truthy?, hs0]
    rw [h0]
    unfold endpointFromContent endpointFromJoinedStyle endpointFromDbId
    simp [hbadS]
  have hrt : resolveEndpoint erows emap row.style "targetClientId" "targetId" "target"
      row.targetId = t := by
    unfold resolveEndpoint
    have h0 : endpointFromStyle row.style "targetClientId" "targetId" "target" = t := by
      unfold endpointFromStyle
      unfold jtruthy
      rw [ht]
      simp [truthy?, ht0]
    rw [h0]
    unfold endpointFromContent endpointFromJoinedStyle endpointFromDbId
    simp [hbadT]
  have hcond : ¬(badId s = true ∨ badId t = true) := by
    simp [hbadS, hbadT]
  have hmain : readConnection erows emap row = some
      { id := toString row.id, source := s, target := t,
        type := if row.type = "" then "smoothstep" else row.type,
        animated := row.animated,
        style := jset (jset (row.style.filter
            (fun p => p.1 ≠ "source" ∧ p.1 ≠ "target"))
          "stroke" ((jtruthy row.style "stroke").getD "#6366f1"))
          "strokeWidth" ((jtruthy row.style "strokeWidth").getD "2") } := by
    unfold readConnection
    dsimp only
    rw [hrs, hrt]
    rw [if_neg hcond]
  exact ⟨_, hmain, rfl, rfl⟩

theorem insertConnections_roundtrip (cid : Nat) (cmap : List (String × Nat))
    (erows : List ElementRow) (emap : List (Nat × String)) :
    ∀ (l : List InputConnection) (nid : Nat),
      (∀ conn ∈ l, ConnQ cmap conn) →
      ((insertConnections cid cmap l nid).1.filterMap (readConnection erows emap)).map
        (fun o => (o.source, o.target)) =
      l.map (fun c2 => (strOf c2.source, strOf c2.target)) := by
  intro l
  induction l with
  | nil => intro nid _; rfl
  | cons conn rest ih =>
    intro nid hQ
    obtain ⟨s, t, sd, td, hs, hs0, hs1, ht, ht0, ht1, hsd, hsd0, htd, htd0, hSy, hTy⟩ :=
      hQ conn (List.mem_cons_self _ _)
    obtain ⟨row, hmk, hjs, hjt⟩ :=
      mkConnRow_some cid nid cmap conn s t sd td hs ht hsd hsd0 htd htd0 hSy hTy
    obtain ⟨out, hread, hos, hot⟩ :=
      readConnection_stamped erows emap row s t hjs hs0 hs1 hjt ht0 ht1
    have hss : strOf conn.source = s := by rw [hs]; rfl
    have hts : strOf conn.target = t := by rw [ht]; rfl
    simp only [insertConnections, hmk]
    simp only [List.filterMap_cons, hread, List.map_cons]
    rw [hos, hot, hss, hts]
    rw [ih (nid + 1) (fun c hc => hQ c (List.mem_cons_of_mem _ hc))]

/-- Claim C1 (amended): for a well-formed save — every node carries a node
kind, node ephemeral ids are truthy strings other than `"undefined"`, database
ids are positive, every edge's canonical source and target name nodes of the
batch, and an edge's style payload does not embed `sourceClientId` /
`targetClientId` entries that contradict its canonical endpoints —
`replaceCanvasState` followed by the canvas-state read succeeds and returns
the nodes in order with their original ephemeral identities recoverable from
the stamped style `clientId`, and returns the edges in order with exactly
their original (source, target) ephemeral endpoint pairs: the read-back state
is isomorphic to the submitted one by ephemeral identity. -/
theorem C1_round_trip (cid startId : Nat) (els : List InputElement)
    (conns : List InputConnection)
    (hT : ∀ el ∈ els, (truthy? el.type).isSome)
    (hK : ∀ el ∈ els, elKey el ≠ "" ∧ elKey el ≠ "undefined")
    (hS : 0 < startId)
    (hE : ∀ conn ∈ conns,
      (∃ el ∈ els, conn.source = some (elKey el)) ∧
      (∃ el ∈ els, conn.target = some (elKey el)))
    (hStyle : ∀ conn ∈ conns, ∀ p ∈ conn.style.getD [],
      (p.1 = "sourceClientId" → some p.2 = conn.source) ∧
      (p.1 = "targetClientId" → some p.2 = conn.target)) :
    ((replaceCanvasState cid startId els conns).2 = true) ∧
    ((readCanvasState (replaceCanvasState cid startId els conns).1).1.map
        (fun e => (jtruthy e.style "clientId").getD "") = els.map elKey) ∧
    ((readCanvasState (replaceCanvasState cid startId els conns).1).2.map
        (fun o => (o.source, o.target)) =
      conns.map (fun c2 => (strOf c2.source, strOf c2.target))) := by
  have hQall : ∀ conn ∈ conns, ConnQ (insertElements cid els startId [] []).2.1 conn := by
    intro conn hc
    obtain ⟨⟨el1, hel1, hsrc⟩, ⟨el2, hel2, htgt⟩⟩ := hE conn hc
    have hk1 := hK el1 hel1
    have hk2 := hK el2 hel2
    obtain ⟨sd, hsd⟩ := Option.isSome_iff_exists.mp
      (insertElements_cmap_mem cid els startId [] [] el1 hel1 hT)
    obtain ⟨td, htd⟩ := Option.isSome_iff_exists.mp
      (insertElements_cmap_mem cid els startId [] [] el2 hel2 hT)
    have hsd0 : sd ≠ 0 := by
      rcases insertElements_cmap_values cid els startId [] [] _ sd hsd with h0 | h0
      · simp [List.lookup] at h0
      · obtain ⟨r, hr, hre⟩ := List.mem_map.mp h0
        have hge := insertElements_row_ids_ge cid els startId [] [] r hr
        omega
    have htd0 : td ≠ 0 := by
      rcases insertElements_cmap_values cid els startId [] [] _ td htd with h0 | h0
      · simp [List.lookup] at h0
      · obtain ⟨r, hr, hre⟩ := List.mem_map.mp h0
        have hge := insertElements_row_ids_ge cid els startId [] [] r hr
        omega
    refine ⟨elKey el1, elKey el2, sd, td, hsrc, hk1.1, hk1.2, htgt, hk2.1, hk2.2,
      hsd, hsd0, htd, htd0, ?_, ?_⟩
    · intro p hp h1
      have h2 := (hStyle conn hc p hp).1 h1
      rw [hsrc] at h2
      injection h2 with h3
    · intro p hp h1
      have h2 := (hStyle conn hc p hp).2 h1
      rw [htgt] at h2
      injection h2 with h3
  refine ⟨rfl, ?_, ?_⟩
  · simp only [replaceCanvasState, readCanvasState]
    rw [List.map_map]
    have hco : ((fun e => (jtruthy e.style "clientId").getD "") ∘ readElement) =
        (fun r => (jtruthy r.style "clientId").getD "") := rfl
    rw [hco]
    exact insertElements_style_ids cid els startId [] [] hT (fun el he => (hK el he).1)
  · simp only [replaceCanvasState, readCanvasState]
    have hpre : conns.map (preprocessConn (insertElements cid els startId [] []).2.1
        (insertElements cid els startId [] []).2.2.1) = conns := by
      have hid : ∀ c ∈ conns,
          preprocessConn (insertElements cid els startId [] []).2.1
            (insertElements cid els startId [] []).2.2.1 c = c := by
        intro c hc
        obtain ⟨s, t, sd, td, hs, hs0, _, ht, ht0, _, hsd, _, htd, _, _, _⟩ := hQall c hc
        have hts : truthy? c.source = some s := by rw [hs]; simp [truthy?, hs0]
        have htt : truthy? c.target = some t := by rw [ht]; simp [truthy?, ht0]
        exact preprocessConn_id _ _ c s t hts htt (by simp [hsd]) (by simp [htd])
      calc conns.map (preprocessConn (insertElements cid els startId [] []).2.1
              (insertElements cid els startId [] []).2.2.1)
          = conns.map id := List.map_congr_left hid
        _ = conns := List.map_id conns
    rw [hpre]
    have hfil : conns.filter (connPasses (insertElements cid els startId [] []).2.1) =
        conns := by
      apply List.filter_eq_self.mpr
      intro c hc
      obtain ⟨s, t, sd, td, hs, hs0, _, ht, ht0, _, hsd, _, htd, _, _, _⟩ := hQall c hc
      have hts : truthy? c.source = some s := by rw [hs]; simp [truthy?, hs0]
      have htt : truthy? c.target = some t := by rw [ht]; simp [truthy?, ht0]
      exact connPasses_true _ c s t hts htt (by simp [hsd]) (by simp [htd])
    rw [hfil]
    exact insertConnections_roundtrip cid _ _ _ conns _ hQall

/-- Witness for C1: two kinded nodes `a`, `b` and the edge `a → b` survive the
save/load cycle with their ephemeral identities and adjacency intact. -/
theorem C1_round_trip_witness :
    ((0 : Nat) < 1) ∧
    ((replaceCanvasState 1 1 [wElA, wElB] [wConnAB]).2 = true) ∧
    ((readCanvasState (replaceCanvasState 1 1 [wElA, wElB] [wConnAB]).1).1.map
        (fun e => (jtruthy e.style "clientId").getD "") = [wElA, wElB].map elKey) ∧
    ((readCanvasState (replaceCanvasState 1 1 [wElA, wElB] [wConnAB]).1).2.map
        (fun o => (o.source, o.target)) =
      [wConnAB].map (fun c2 => (strOf c2.source, strOf c2.target))) :=
  ⟨by decide,
   C1_round_trip 1 1 [wElA, wElB] [wConnAB] (by decide) (by decide) (by decide)
     (by decide) (by decide)⟩

/-- Counterexample to claim C1 as stated: its only hypothesis is that every
edge endpoint names an element of N, so N = [one element with no node kind]
with E = [] is within scope; the claim then demands a post-replace node set
isomorphic to N under renaming, but `replaceCanvasState` skips the kindless
element (src/server/openai.ts, lines 1781-1785) and the subsequent read
returns zero nodes against the one submitted — no identifier renaming can
relate them. -/
theorem C1_claim_counterexample :
    ((replaceCanvasState 1 1 [wElNoType] []).1.elements = []) ∧
    ((readCanvasState (replaceCanvasState 1 1 [wElNoType] []).1).1 = []) := by
  constructor <;> rfl
